import Mathlib

/-!
Cozy-TODO: session state of `src/src/App.js`.

A shallow embedding of the timer, todo-list, audio and preference handlers of
the `App` component and of the title handlers of `EditableTitle`.

Modelling conventions.

* React state cells (`useState`) are fields of a record; an event handler is a
  function from the record of the last render to the record of the next one
  (all `setX` calls of one handler are batched into one render).
* `useEffect` bodies are functions on the record; `commit` re-runs the timer
  effect as React does, i.e. whenever one of its dependencies
  (`isTimerRunning`, `timer`) differs from the previous render.
* JavaScript numbers that hold integers are `Int`.  A JavaScript number is an
  IEEE double: sums, differences, products, `parseInt` and the decimal numeral
  of integers are exact as long as the values are safe integers (magnitude
  below `2^53`, `SafeInteger`), and the statements that depend on exact
  arithmetic carry that bound as a hypothesis.  The volume, a fraction, is a
  `Rat`.
* An `HTMLAudioElement` is a record with the attributes the handlers touch and
  a counter of the `play()` invocations it received.
-/

namespace CozyTodo

/-! ## Audio elements -/

/-- An `HTMLAudioElement` as far as the code touches it: `src`, `loop`,
`volume`, `paused`, `currentTime`, and the number of `play()` invocations
received so far.  The defaults are those of `new Audio(src)`. -/
structure Audio where
  src : String := ""
  loop : Bool := false
  volume : Rat := 1
  paused : Bool := true
  currentTime : Nat := 0
  playCalls : Nat := 0
deriving DecidableEq, Repr

/-- The method `audio.play()`. -/
def Audio.play (a : Audio) : Audio :=
  { a with paused := false, playCalls := a.playCalls + 1 }

/-- The method `audio.pause()`. -/
def Audio.pause (a : Audio) : Audio :=
  { a with paused := true }

/-- The assignment `audio.currentTime = t`. -/
def Audio.setCurrentTime (a : Audio) (t : Nat) : Audio :=
  { a with currentTime := t }

/-- The assignment `audio.volume = v`.  The setter accepts values in `[0, 1]`
and throws an `IndexSizeError` otherwise (`none`). -/
def Audio.setVolume (a : Audio) (v : Rat) : Option Audio :=
  if 0 ≤ v ∧ v ≤ 1 then some { a with volume := v } else none

/-- The helper `safePlay(audio)`: nothing for a null reference, `play()`
otherwise (a rejected promise is swallowed). -/
def safePlay (audio : Option Audio) : Option Audio :=
  audio.map Audio.play

/-! ## JavaScript string primitives used by the handlers -/

/-- The characters ECMAScript calls `WhiteSpace` or `LineTerminator`; they are
what `String.prototype.trim` strips and what `parseInt` skips. -/
def isStrWhiteSpaceChar (c : Char) : Bool :=
  c.toNat == 0x09 || c.toNat == 0x0A || c.toNat == 0x0B || c.toNat == 0x0C ||
  c.toNat == 0x0D || c.toNat == 0x20 || c.toNat == 0xA0 || c.toNat == 0x1680 ||
  (decide (0x2000 ≤ c.toNat) && decide (c.toNat ≤ 0x200A)) ||
  c.toNat == 0x2028 || c.toNat == 0x2029 || c.toNat == 0x202F ||
  c.toNat == 0x205F || c.toNat == 0x3000 || c.toNat == 0xFEFF

/-- The method `String.prototype.trim`. -/
def trim (s : String) : String :=
  ⟨((s.data.dropWhile isStrWhiteSpaceChar).reverse.dropWhile isStrWhiteSpaceChar).reverse⟩

/-- Value of a character as a digit in some radix up to 36. -/
def digitValue (c : Char) : Option Nat :=
  if 48 ≤ c.toNat ∧ c.toNat ≤ 57 then some (c.toNat - 48)
  else if 97 ≤ c.toNat ∧ c.toNat ≤ 122 then some (c.toNat - 97 + 10)
  else if 65 ≤ c.toNat ∧ c.toNat ≤ 90 then some (c.toNat - 65 + 10)
  else none

/-- Value of a character as a digit of radix `R`, if it is one. -/
def radixDigit (R : Nat) (c : Char) : Option Nat :=
  (digitValue c).filter (fun d => decide (d < R))

/-- The value of a digit string in radix `R`, most significant digit first. -/
def digitsValue (R : Nat) (Z : List Char) : Nat :=
  Z.foldl (fun acc c => acc * R + (radixDigit R c).getD 0) 0

/-- First step of `parseInt` after skipping white space: one optional sign. -/
def readSign (S : List Char) : Int × List Char :=
  match S with
  | '-' :: r => (-1, r)
  | '+' :: r => (1, r)
  | _ => (1, S)

/-- Second step of `parseInt` without a radix argument: a leading `0x` or `0X`
selects radix 16 and is removed, otherwise the radix is 10. -/
def readRadix (S : List Char) : Nat × List Char :=
  match S with
  | '0' :: 'x' :: r => (16, r)
  | '0' :: 'X' :: r => (16, r)
  | _ => (10, S)

/-- The predicate `Number.isSafeInteger`: the integers of magnitude below
`2^53`, which a JavaScript number holds exactly. -/
def SafeInteger (x : Int) : Prop :=
  -(2 ^ 53) < x ∧ x < 2 ^ 53

instance (x : Int) : Decidable (SafeInteger x) := by
  unfold SafeInteger; infer_instance

/-- The global function `parseInt(string)` called without a radix; `none` is
`NaN`.  Leading white space is skipped, one sign is read, a `0x`/`0X` marker
selects radix 16, and the longest run of digits is converted.  The result is
the mathematical value of the digits; the code gets that value rounded to a
double, which is the same number when it is a safe integer. -/
def parseInt (input : String) : Option Int :=
  let signed := readSign (input.data.dropWhile isStrWhiteSpaceChar)
  let based := readRadix signed.2
  let Z := based.2.takeWhile (fun c => (radixDigit based.1 c).isSome)
  if Z.isEmpty then none else some (signed.1 * (digitsValue based.1 Z : Nat))

/-- The string React writes into the input for an integer number
(`Number.prototype.toString`): decimal digits, preceded by `-` when negative.
This is the numeral of the code for safe integers; from `2^53` on the code
prints the shortest digits that read back as the same double, and from `10^21`
on it prints exponent notation. -/
def numberToString (n : Int) : String :=
  if n < 0 then ⟨'-' :: (Nat.toDigits 10 n.natAbs)⟩ else ⟨Nat.toDigits 10 n.natAbs⟩

/-- A list of decimal digit characters. -/
def DecimalDigits (l : List Char) : Prop :=
  ∀ c ∈ l, ∃ d, d < 10 ∧ c = Nat.digitChar d

/-! ## Timer state -/

/-- The timer-related state cells of `App` together with `alarmAudioRef`. -/
structure TimerState where
  timer : Int := 25 * 60
  customTimer : Int := 25
  isTimerRunning : Bool := false
  isTimerEndPopupOpen : Bool := false
  alarmAudioRef : Option Audio := none
deriving DecidableEq, Repr

/-- The mount effect `alarmAudioRef.current = new Audio(...)`. -/
def alarmAudioEffect (s : TimerState) : TimerState :=
  { s with alarmAudioRef := some { src := "/sounds/timerEnd.mp3" } }

/-- The state of `App` after its first render and mount effects. -/
def mounted : TimerState :=
  alarmAudioEffect {}

/-- The statements `audio.pause(); audio.currentTime = 0` guarded by
`if (alarmAudioRef.current)`. -/
def silenceAlarm (r : Option Audio) : Option Audio :=
  r.map (fun a => (a.pause).setCurrentTime 0)

/-- Body of the timer effect (lines 211-226).  Arming the interval changes no
state cell; the expiry branch stops the run, plays the alarm and opens the
popup. -/
def timerEffect (s : TimerState) : TimerState :=
  if s.isTimerRunning && decide (s.timer > 0) then s
  else if s.timer = 0 then
    { s with
      isTimerRunning := false
      alarmAudioRef := s.alarmAudioRef.map Audio.play
      isTimerEndPopupOpen := true }
  else s

/-- Whether a dependency of the timer effect differs between two renders. -/
def depsChanged (prev next : TimerState) : Bool :=
  prev.isTimerRunning != next.isTimerRunning || prev.timer != next.timer

/-- Render `next` after `prev`: the timer effect runs when a dependency
changed, and the state it sets is rendered in turn, at most `fuel` times. -/
def rerender : Nat → TimerState → TimerState → TimerState
  | 0, _, next => next
  | fuel + 1, prev, next =>
      if depsChanged prev next then rerender fuel next (timerEffect next) else next

/-- Render `next` after `prev` until no effect is pending.  Two rounds reach
the fixed point (`rerender_fuel`). -/
def commit (prev next : TimerState) : TimerState :=
  rerender 2 prev next

/-- Whether the interval armed by the timer effect is live in a rendered state. -/
def intervalArmed (s : TimerState) : Bool :=
  s.isTimerRunning && decide (s.timer > 0)

/-- The interval callback `setTimer(prevTimer => prevTimer - 1)`.  The
difference is the exact one; in the code it is exact when `prevTimer` is a
safe integer, and a double far above `2^53` is its own predecessor. -/
def intervalCallback (s : TimerState) : TimerState :=
  { s with timer := s.timer - 1 }

/-- One elapsed second: the callback fires if the interval is live, and the
new state is rendered. -/
def tick (s : TimerState) : TimerState :=
  if intervalArmed s then commit s (intervalCallback s) else s

/-- The state after `n` elapsed seconds. -/
def ticks : Nat → TimerState → TimerState
  | 0, s => s
  | n + 1, s => ticks n (tick s)

/-- The handler `toggleTimer`. -/
def toggleTimer (s : TimerState) : TimerState :=
  { s with isTimerRunning := !s.isTimerRunning }

/-- The handler `resetTimer`. -/
def resetTimer (s : TimerState) : TimerState :=
  { s with
    timer := s.customTimer * 60
    isTimerRunning := false
    alarmAudioRef := silenceAlarm s.alarmAudioRef }

/-- The handler `handleCustomTimerChange`, applied to `event.target.value`.
The product `value * 60` is the exact one; in the code it is exact when it is
a safe integer. -/
def handleCustomTimerChange (input : String) (s : TimerState) : TimerState :=
  let value : Int :=
    match parseInt input with
    | some v => if v = 0 then 0 else v
    | none => 0
  { s with customTimer := value, timer := value * 60 }

/-- The handler `handleCloseTimerEndPopup`. -/
def handleCloseTimerEndPopup (s : TimerState) : TimerState :=
  resetTimer { s with isTimerEndPopupOpen := false }

/-- The handler `handleAddMinute`. -/
def handleAddMinute (s : TimerState) : TimerState :=
  { s with
    timer := s.timer + 60
    isTimerEndPopupOpen := false
    isTimerRunning := true
    alarmAudioRef := silenceAlarm s.alarmAudioRef }

/-- The handler `handleStopTimer`. -/
def handleStopTimer (s : TimerState) : TimerState :=
  { s with
    isTimerRunning := false
    isTimerEndPopupOpen := false
    alarmAudioRef := silenceAlarm s.alarmAudioRef }

/-- A user event: the handler runs on the rendered state and the result is
rendered, effects included. -/
def dispatch (handler : TimerState → TimerState) (s : TimerState) : TimerState :=
  commit s (handler s)

/-- A rendered state with no effect pending: the expiry branch has already
stopped a run that reached zero. -/
def Settled (s : TimerState) : Prop :=
  s.timer = 0 → s.isTimerRunning = false

instance (s : TimerState) : Decidable (Settled s) := by
  unfold Settled; infer_instance

/-! ## Todo list -/

/-- An entry of the `todos` array. -/
structure TodoItem where
  text : String
  completed : Bool
deriving DecidableEq, Repr

/-- The state cells `todos` and `newTodo`. -/
structure TodoState where
  todos : List TodoItem := []
  newTodo : String := ""
deriving DecidableEq, Repr

/-- The handler `handleAddTodo`. -/
def handleAddTodo (s : TodoState) : TodoState :=
  if trim s.newTodo ≠ "" then
    { s with todos := s.todos ++ [{ text := s.newTodo, completed := false }], newTodo := "" }
  else s

/-- The `onChange` handler of the todo text field, `setNewTodo(e.target.value)`. -/
def setNewTodo (value : String) (s : TodoState) : TodoState :=
  { s with newTodo := value }

/-- The handler `handleToggleComplete`.  Reading `newTodos[index].completed`
for an index outside the array throws a `TypeError` (`none`); otherwise the
item at `index` gets its `completed` flag negated. -/
def handleToggleComplete (index : Nat) (s : TodoState) : Option TodoState :=
  match s.todos[index]? with
  | none => none
  | some item =>
      some { s with todos := s.todos.set index { item with completed := !item.completed } }

/-- The handler `handleDeleteTodo`: `todos.filter((_, i) => i !== index)`. -/
def handleDeleteTodo (index : Nat) (s : TodoState) : TodoState :=
  { s with todos := (s.todos.enum.filter (fun p => p.1 != index)).map Prod.snd }

/-! ## Time display -/

/-- The method `String.prototype.padStart(targetLength, padString)` for a pad
string of one character. -/
def padStart (s : String) (targetLength : Nat) (padChar : Char) : String :=
  ⟨List.replicate (targetLength - s.length) padChar ++ s.data⟩

/-- The function `formatTime`.  `Math.floor(seconds / 60)` is floor division
and `%` is the remainder with the sign of the dividend.  Quotient and numerals
are the exact ones; in the code they are exact when `seconds` is a safe
integer. -/
def formatTime (seconds : Int) : String :=
  let minutes := Int.fdiv seconds 60
  let remainingSeconds := Int.tmod seconds 60
  numberToString minutes ++ ":" ++ padStart (numberToString remainingSeconds) 2 '0'

/-! ## Ambient audio -/

/-- The values of the `soundSource` state cell, i.e. of the three menu items
of the sound-source select. -/
inductive SoundSource where
  | none
  | default
  | custom
deriving DecidableEq, Repr

/-- The table `defaultSounds`; a missing key reads as `undefined`. -/
def defaultSounds (name : String) : String :=
  if name = "nature" then "/sounds/nature.mp3"
  else if name = "rain" then "/sounds/rain.mp3"
  else if name = "cafe" then "/sounds/cafe.mp3"
  else if name = "ocean" then "/sounds/ocean.mp3"
  else if name = "timerEnd" then "/sounds/timerEnd.mp3"
  else "undefined"

/-- The audio-related state cells and refs of `App`.  `detached` lists, in
their last state, the ambient `Audio` objects that `audioRef` held before it
was assigned a new one; the code keeps no reference to them. -/
structure AudioState where
  volume : Rat := 1 / 2
  isPlaying : Bool := false
  soundSource : SoundSource := SoundSource.default
  selectedSound : String := "nature"
  customSound : Option String := none
  isSettingsOpen : Bool := false
  audioRef : Option Audio := none
  timerAudioRef : Audio := { src := "/sounds/timerEnd.mp3" }
  taskAudioRef : Audio := { src := "/sounds/timerEnd.mp3" }
  detached : List Audio := []
deriving DecidableEq, Repr

/-- JavaScript truthiness of a string-or-null value. -/
def truthy (v : Option String) : Bool :=
  match v with
  | none => false
  | some str => str != ""

/-- The statement `audioRef.current.pause()` guarded by a null check. -/
def pauseCurrent (s : AudioState) : AudioState :=
  { s with audioRef := s.audioRef.map Audio.pause }

/-- The statements shared by every place that starts an ambient sound:
`audioRef.current = new Audio(src); audioRef.current.loop = true;
audioRef.current.volume = volume; safePlay(audioRef.current);
setIsPlaying(true)`.  The object held before becomes detached.  When the
volume setter throws, the statements after it are skipped. -/
def startAmbient (src : String) (s : AudioState) : AudioState :=
  let created : Audio := { src := src, loop := true }
  let s1 := { s with detached := s.detached ++ s.audioRef.toList, audioRef := some created }
  match created.setVolume s.volume with
  | none => s1
  | some a => { s1 with audioRef := safePlay (some a), isPlaying := true }

/-- The handler `handleDefaultSoundChange`, applied to `event.target.value`. -/
def handleDefaultSoundChange (newSound : String) (s : AudioState) : AudioState :=
  let s1 := { s with selectedSound := newSound }
  if s.soundSource = SoundSource.default then
    startAmbient (defaultSounds newSound) (pauseCurrent s1)
  else s1

/-- The handler `handleSoundSourceChange`, applied to `event.target.value`. -/
def handleSoundSourceChange (source : SoundSource) (s : AudioState) : AudioState :=
  let s1 := pauseCurrent { s with soundSource := source }
  if source = SoundSource.default then
    startAmbient (defaultSounds s.selectedSound) s1
  else if source = SoundSource.custom ∧ truthy s.customSound = true then
    startAmbient (s.customSound.getD "") s1
  else if source = SoundSource.none then
    { pauseCurrent s1 with isPlaying := false }
  else s1

/-- The handler `toggleSettings`. -/
def toggleSettings (s : AudioState) : AudioState :=
  let s1 := { s with isSettingsOpen := !s.isSettingsOpen }
  if s.isSettingsOpen = true ∧ s.isPlaying = true ∧
      (s.soundSource = SoundSource.default ∨ s.soundSource = SoundSource.custom) then
    { s1 with audioRef := safePlay s1.audioRef }
  else s1

/-- Cleanup of the sound-source effect (lines 192-196). -/
def soundSourceCleanup (s : AudioState) : AudioState :=
  { s with
    audioRef := s.audioRef.map Audio.pause
    timerAudioRef := s.timerAudioRef.pause
    taskAudioRef := s.taskAudioRef.pause }

/-- Body of the sound-source effect (lines 188-191).  When the volume setter
throws, `loop` has been assigned already; the error escapes the effect, React
unmounts `App`, and the unmount runs the cleanup, which pauses the handles. -/
def soundSourceEffect (s : AudioState) : AudioState :=
  if s.soundSource = SoundSource.default then
    match s.audioRef with
    | none => s
    | some a =>
        let looped : Audio := { a with loop := true }
        match looped.setVolume s.volume with
        | some b => { s with audioRef := some b }
        | none => soundSourceCleanup { s with audioRef := some looped }
  else s

/-- Body of the volume effect (lines 199-205).  All three assignments use the
same value, so when the setter throws nothing has been assigned; the error
escapes the effect, React unmounts `App`, and the unmount runs the cleanup of
the sound-source effect, which pauses the handles. -/
def volumeEffect (s : AudioState) : AudioState :=
  if s.soundSource = SoundSource.default ∨ s.soundSource = SoundSource.custom then
    if 0 ≤ s.volume ∧ s.volume ≤ 1 then
      { s with
        audioRef := s.audioRef.map (fun a => { a with volume := s.volume })
        timerAudioRef := { s.timerAudioRef with volume := s.volume }
        taskAudioRef := { s.taskAudioRef with volume := s.volume } }
    else soundSourceCleanup s
  else s

/-- The startup effect (lines 229-244), without the listener it registers. -/
def startupEffect (s : AudioState) : AudioState :=
  match s.audioRef with
  | some _ => s
  | none =>
      if s.soundSource = SoundSource.default then
        startAmbient (defaultSounds s.selectedSound) s
      else if s.soundSource = SoundSource.custom ∧ truthy s.customSound = true then
        startAmbient (s.customSound.getD "") s
      else s

/-- The listener `onFirstClick` registered by the startup effect.  Its closure
holds the `isPlaying` of the first render, which is `false`. -/
def onFirstClick (s : AudioState) : AudioState :=
  match s.audioRef with
  | none => s
  | some a => { s with audioRef := safePlay (some a), isPlaying := true }

/-- The handler `handleVolumeChange`, applied to the slider value. -/
def handleVolumeChange (newValue : Rat) (s : AudioState) : AudioState :=
  { s with volume := newValue }

/-- The handler `toggleMusic`. -/
def toggleMusic (s : AudioState) : AudioState :=
  if s.soundSource = SoundSource.default ∨ s.soundSource = SoundSource.custom then
    match s.audioRef with
    | none => s
    | some a =>
        { s with
          audioRef := if s.isPlaying then some a.pause else safePlay (some a)
          isPlaying := !s.isPlaying }
  else s

/-- The `onload` callback of `handleCustomSoundUpload`, applied to the data
URL of the chosen file; without a file the handler does nothing. -/
def handleCustomSoundUpload (file : Option String) (s : AudioState) : AudioState :=
  match file with
  | none => s
  | some soundUrl =>
      startAmbient soundUrl
        (pauseCurrent { s with customSound := some soundUrl, soundSource := SoundSource.custom })

/-- The inline `onChange` handler of the custom-sound file input (lines
638-651), applied to the object URL of the chosen file. -/
def customSoundInputChange (file : Option String) (s : AudioState) : AudioState :=
  match file with
  | none => s
  | some url =>
      let s1 := pauseCurrent { s with customSound := some url }
      let created : Audio := { src := url, loop := true }
      let s2 := { s1 with detached := s1.detached ++ s1.audioRef.toList, audioRef := some created }
      match created.setVolume s.volume with
      | none => s2
      | some a => { s2 with audioRef := if s.isPlaying then safePlay (some a) else some a }

/-- Render `next` after `prev`: the cleanup and body of the sound-source effect
run when `soundSource` changed, then the volume effect runs when `volume` or
`soundSource` changed.  Neither effect sets a state cell. -/
def renderAudio (prev next : AudioState) : AudioState :=
  let s1 :=
    if prev.soundSource ≠ next.soundSource then soundSourceEffect (soundSourceCleanup next)
    else next
  if prev.volume ≠ next.volume ∨ prev.soundSource ≠ next.soundSource then volumeEffect s1
  else s1

/-- A user event on the audio controls: the handler runs on the rendered state
and the result is rendered, effects included. -/
def dispatchAudio (handler : AudioState → AudioState) (s : AudioState) : AudioState :=
  renderAudio s (handler s)

/-- The audio state of `App` after its first render and mount effects: the
volume effect has set the two chime handles, the startup effect has created
and started the ambient sound. -/
def mountedAudio : AudioState :=
  startupEffect (volumeEffect (soundSourceEffect {}))

/-- The mounted component after the sound source was set to `none` and then
back to `default`, each followed by its render. -/
def reselectedDefault : AudioState :=
  dispatchAudio (handleSoundSourceChange SoundSource.default)
    (dispatchAudio (handleSoundSourceChange SoundSource.none) mountedAudio)

/-- The mounted component after the sound source was set to `custom` while no
custom sound has been uploaded, followed by its render. -/
def customWithoutFile : AudioState :=
  dispatchAudio (handleSoundSourceChange SoundSource.custom) mountedAudio

/-- The operations that touch the ambient audio. -/
inductive AudioOp where
  | soundSourceChange (source : SoundSource)
  | defaultSoundChange (newSound : String)
  | customSoundUpload (file : Option String)
  | customSoundInput (file : Option String)
  | startup
  | firstClick
  | music
  | settings
  | volumeChange (newValue : Rat)
  | sourceCleanup
  | sourceEffect
  | volumeEffectRun

/-- One operation applied to the audio state. -/
def AudioOp.apply (op : AudioOp) (s : AudioState) : AudioState :=
  match op with
  | AudioOp.soundSourceChange source => handleSoundSourceChange source s
  | AudioOp.defaultSoundChange newSound => handleDefaultSoundChange newSound s
  | AudioOp.customSoundUpload file => handleCustomSoundUpload file s
  | AudioOp.customSoundInput file => customSoundInputChange file s
  | AudioOp.startup => startupEffect s
  | AudioOp.firstClick => onFirstClick s
  | AudioOp.music => toggleMusic s
  | AudioOp.settings => toggleSettings s
  | AudioOp.volumeChange newValue => handleVolumeChange newValue s
  | AudioOp.sourceCleanup => soundSourceCleanup s
  | AudioOp.sourceEffect => soundSourceEffect s
  | AudioOp.volumeEffectRun => volumeEffect s

/-- A sequence of operations applied from left to right. -/
def runAudio (ops : List AudioOp) (s : AudioState) : AudioState :=
  ops.foldl (fun acc op => op.apply acc) s

/-- Every ambient `Audio` object constructed so far. -/
def ambientObjects (s : AudioState) : List Audio :=
  s.audioRef.toList ++ s.detached

/-- Number of ambient objects that are playing. -/
def playingCount (s : AudioState) : Nat :=
  ((ambientObjects s).filter (fun a => !a.paused)).length

/-- Every ambient object that `audioRef` no longer holds is paused. -/
def DetachedSilent (s : AudioState) : Prop :=
  ∀ a ∈ s.detached, a.paused = true

/-- The whole component state used when the alarm and the volume meet. -/
structure AppState where
  timerState : TimerState := {}
  audio : AudioState := {}
deriving DecidableEq, Repr

/-- The state of `App` after its first render and mount effects. -/
def mountedApp : AppState :=
  { timerState := mounted, audio := mountedAudio }

/-- A volume change on the whole component: `handleVolumeChange` and the
render that follows, which touch the audio cells only. -/
def AppState.changeVolume (v : Rat) (s : AppState) : AppState :=
  { s with audio := dispatchAudio (handleVolumeChange v) s.audio }

/-- Elapsed seconds on the whole component, which touch the timer cells only. -/
def AppState.ticks (n : Nat) (s : AppState) : AppState :=
  { s with timerState := CozyTodo.ticks n s.timerState }

/-! ## Preferences and durable storage -/

/-- The content of `localStorage`: key and value pairs, one per key. -/
abbrev Storage := List (String × String)

/-- The method `localStorage.getItem(key)`; `none` is `null`. -/
def getItem (storage : Storage) (key : String) : Option String :=
  List.lookup key storage

/-- The method `localStorage.removeItem(key)`. -/
def removeItem (storage : Storage) (key : String) : Storage :=
  storage.filter (fun p => p.1 != key)

/-- The method `localStorage.setItem(key, value)`. -/
def setItem (storage : Storage) (key value : String) : Storage :=
  (key, value) :: removeItem storage key

/-- The table `themePresets`; `none` is `undefined`. -/
def themePresets (name : String) : Option String :=
  if name = "purple" then some "#7c4dff"
  else if name = "blue" then some "#2196f3"
  else if name = "green" then some "#4caf50"
  else if name = "pink" then some "#e91e63"
  else if name = "orange" then some "#ff9800"
  else if name = "teal" then some "#009688"
  else none

/-- The preference cells of `App`, the cells of `EditableTitle`, and the
`localStorage` both components use.  The defaults are the initial values of
the `useState` calls with an empty storage. -/
structure PrefState where
  selectedTheme : String := "purple"
  customThemeColor : Option String := some "#7c4dff"
  isDarkMode : Bool := false
  backgroundImage : String := "/images/default-bg.jpg"
  isEditing : Bool := false
  title : String := "Cozy Todo"
  tempTitle : String := "Cozy Todo"
  localStorage : Storage := []
deriving DecidableEq, Repr

/-- The effect `Load saved preferences` of `App` (lines 88-96). -/
def loadPreferences (p : PrefState) : PrefState :=
  let savedTheme := getItem p.localStorage "theme"
  let savedDarkMode := getItem p.localStorage "darkMode"
  let savedBackground := getItem p.localStorage "background"
  let p1 := if truthy savedTheme then { p with selectedTheme := savedTheme.getD "" } else p
  let p2 :=
    if truthy savedDarkMode then { p1 with isDarkMode := savedDarkMode.getD "" == "true" }
    else p1
  if truthy savedBackground then { p2 with backgroundImage := savedBackground.getD "" } else p2

/-- The mount effect of `EditableTitle` (lines 12-18). -/
def loadTitle (p : PrefState) : PrefState :=
  let savedTitle := getItem p.localStorage "appTitle"
  if truthy savedTitle then
    { p with title := savedTitle.getD "", tempTitle := savedTitle.getD "" }
  else p

/-- A session start on a given storage: both components mount with their
initial cells and run their load effects. -/
def load (storage : Storage) : PrefState :=
  loadTitle (loadPreferences { localStorage := storage })

/-- The handler `toggleTheme`. -/
def toggleTheme (p : PrefState) : PrefState :=
  { p with isDarkMode := !p.isDarkMode }

/-- The handler `handleThemeColorChange`, applied to `event.target.value`. -/
def handleThemeColorChange (color : String) (p : PrefState) : PrefState :=
  if color.data.head? = some '#' then
    { p with customThemeColor := some color, selectedTheme := "custom" }
  else
    { p with customThemeColor := themePresets color, selectedTheme := color }

/-- The handler `handleBackgroundChange` with the `onload` callback of its
reader, applied to the data URL of the chosen file; without a file the handler
does nothing. -/
def handleBackgroundChange (file : Option String) (p : PrefState) : PrefState :=
  match file with
  | none => p
  | some dataUrl => { p with backgroundImage := dataUrl }

/-- The inline handler of the `Remove Background` button (lines 682-685). -/
def removeBackground (p : PrefState) : PrefState :=
  { p with backgroundImage := "", localStorage := removeItem p.localStorage "background" }

/-- The handler `handleEditClick` of `EditableTitle`. -/
def handleEditClick (p : PrefState) : PrefState :=
  { p with isEditing := true, tempTitle := p.title }

/-- The `onChange` handler of the title input, `setTempTitle(e.target.value)`. -/
def setTempTitle (value : String) (p : PrefState) : PrefState :=
  { p with tempTitle := value }

/-- The handler `handleSave` of `EditableTitle`. -/
def handleSave (p : PrefState) : PrefState :=
  if trim p.tempTitle ≠ "" then
    { p with
      title := p.tempTitle
      localStorage := setItem p.localStorage "appTitle" p.tempTitle
      isEditing := false }
  else
    { p with tempTitle := p.title, isEditing := false }

/-- The handler `handleCancel` of `EditableTitle`. -/
def handleCancel (p : PrefState) : PrefState :=
  { p with tempTitle := p.title, isEditing := false }

/-! ## Decimal numerals -/

theorem radixDigit_digitChar (d : Nat) (h : d < 10) :
    radixDigit 10 (Nat.digitChar d) = some d := by
  interval_cases d <;> rfl

theorem digitChar_not_space (d : Nat) (h : d < 10) :
    isStrWhiteSpaceChar (Nat.digitChar d) = false := by
  interval_cases d <;> rfl

theorem readSign_digitChar (d : Nat) (h : d < 10) (r : List Char) :
    readSign (Nat.digitChar d :: r) = (1, Nat.digitChar d :: r) := by
  interval_cases d <;> rfl

theorem readRadix_single (c : Char) : readRadix [c] = (10, [c]) := by
  unfold readRadix
  split <;> simp_all

theorem readRadix_digitChar (c : Char) (d : Nat) (h : d < 10) (r : List Char) :
    readRadix (c :: Nat.digitChar d :: r) = (10, c :: Nat.digitChar d :: r) := by
  unfold readRadix
  split
  · rename_i heq
    simp only [List.cons.injEq] at heq
    have := heq.2.1
    interval_cases d <;> simp [Nat.digitChar] at this
  · rename_i heq
    simp only [List.cons.injEq] at heq
    have := heq.2.1
    interval_cases d <;> simp [Nat.digitChar] at this
  · rfl

theorem digitsValue_append (R : Nat) (l : List Char) (c : Char) :
    digitsValue R (l ++ [c]) = digitsValue R l * R + (radixDigit R c).getD 0 := by
  simp [digitsValue, List.foldl_append]

theorem toDigitsCore_spec (fuel : Nat) : ∀ (n : Nat) (ds : List Char), n < fuel →
    ∃ l, Nat.toDigitsCore 10 fuel n ds = l ++ ds ∧ l ≠ [] ∧ DecimalDigits l ∧
      digitsValue 10 l = n := by
  induction fuel with
  | zero => intro n ds h; omega
  | succ fuel ih =>
    intro n ds h
    have hd : n % 10 < 10 := Nat.mod_lt _ (by decide)
    simp only [Nat.toDigitsCore]
    by_cases h0 : n / 10 = 0
    · refine ⟨[Nat.digitChar (n % 10)], by simp [h0], by simp, ?_, ?_⟩
      · intro c hc
        simp only [List.mem_singleton] at hc
        exact ⟨n % 10, hd, hc⟩
      · have := digitsValue_append 10 [] (Nat.digitChar (n % 10))
        simp only [List.nil_append] at this
        rw [this, radixDigit_digitChar _ hd]
        simp [digitsValue]
        omega
    · obtain ⟨l, hl, _, hdec, hval⟩ := ih (n / 10) (Nat.digitChar (n % 10) :: ds) (by omega)
      refine ⟨l ++ [Nat.digitChar (n % 10)], by simp [h0, hl], by simp, ?_, ?_⟩
      · intro c hc
        rcases List.mem_append.mp hc with hc | hc
        · exact hdec c hc
        · simp only [List.mem_singleton] at hc
          exact ⟨n % 10, hd, hc⟩
      · rw [digitsValue_append, hval, radixDigit_digitChar _ hd]
        simp
        omega

theorem toDigits_spec (n : Nat) :
    Nat.toDigits 10 n ≠ [] ∧ DecimalDigits (Nat.toDigits 10 n) ∧
      digitsValue 10 (Nat.toDigits 10 n) = n := by
  obtain ⟨l, hl, hne, hdec, hval⟩ := toDigitsCore_spec (n + 1) n [] (by omega)
  simp only [List.append_nil] at hl
  unfold Nat.toDigits
  rw [hl]
  exact ⟨hne, hdec, hval⟩

theorem parse_decimalDigits (sign : Int) (l : List Char) (hne : l ≠ []) (hdec : DecimalDigits l) :
    (let based := readRadix l
     let Z := based.2.takeWhile (fun c => (radixDigit based.1 c).isSome)
     if Z.isEmpty then none else some (sign * (digitsValue based.1 Z : Nat)))
      = some (sign * (digitsValue 10 l : Nat)) := by
  have hr : readRadix l = (10, l) := by
    match l, hne, hdec with
    | [c], _, _ => exact readRadix_single c
    | c :: c2 :: r, _, hdec =>
      obtain ⟨d, hd, rfl⟩ := hdec c2 (by simp)
      exact readRadix_digitChar c d hd r
  have ht : l.takeWhile (fun c => (radixDigit 10 c).isSome) = l := by
    rw [List.takeWhile_eq_self_iff]
    intro c hc
    obtain ⟨d, hd, rfl⟩ := hdec c hc
    simp [radixDigit_digitChar d hd]
  simp only [hr, ht]
  cases l with
  | nil => exact absurd rfl hne
  | cons a r => simp

theorem parseInt_numberToString (n : Int) : parseInt (numberToString n) = some n := by
  obtain ⟨hne, hdec, hval⟩ := toDigits_spec n.natAbs
  obtain ⟨c, r, hcr⟩ := List.exists_cons_of_ne_nil hne
  obtain ⟨d, hd, hc⟩ := hdec c (by rw [hcr]; simp)
  unfold parseInt numberToString
  by_cases hneg : n < 0
  · have h1 : List.dropWhile isStrWhiteSpaceChar ('-' :: Nat.toDigits 10 n.natAbs)
        = '-' :: Nat.toDigits 10 n.natAbs := by
      rw [List.dropWhile_cons_of_neg]; decide
    have h2 : readSign ('-' :: Nat.toDigits 10 n.natAbs) = (-1, Nat.toDigits 10 n.natAbs) := rfl
    simp only [hneg, if_true, h1, h2]
    rw [parse_decimalDigits (-1) _ hne hdec, hval]
    congr 1
    omega
  · have h1 : List.dropWhile isStrWhiteSpaceChar (Nat.toDigits 10 n.natAbs)
        = Nat.toDigits 10 n.natAbs := by
      rw [hcr, List.dropWhile_cons_of_neg]
      rw [hc, digitChar_not_space d hd]; simp
    have h2 : readSign (Nat.toDigits 10 n.natAbs) = (1, Nat.toDigits 10 n.natAbs) := by
      rw [hcr, hc]; exact readSign_digitChar d hd r
    simp only [hneg, if_false, h1, h2]
    rw [parse_decimalDigits 1 _ hne hdec, hval]
    congr 1
    omega

/-! ## The render loop -/

theorem timerEffect_deps_idem (s : TimerState) :
    depsChanged (timerEffect s) (timerEffect (timerEffect s)) = false := by
  unfold timerEffect depsChanged
  by_cases h1 : (s.isTimerRunning && decide (s.timer > 0)) = true
  · simp [h1]
  · by_cases h2 : s.timer = 0
    · simp [h1, h2]
    · simp [h1, h2]

theorem rerender_fuel (k : Nat) (prev next : TimerState) :
    rerender (k + 2) prev next = rerender 2 prev next := by
  cases k with
  | zero => rfl
  | succ k =>
    simp only [rerender]
    split
    · split
      · simp [timerEffect_deps_idem]
      · rfl
    · rfl

theorem commit_of_unchanged (prev next : TimerState)
    (h : depsChanged prev next = false) : commit prev next = next := by
  simp [commit, rerender, h]

theorem timerEffect_of_nonzero (s : TimerState) (h : s.timer ≠ 0) : timerEffect s = s := by
  simp [timerEffect, h]

theorem timerEffect_of_zero (s : TimerState) (h : s.timer = 0) :
    timerEffect s =
      { s with
        isTimerRunning := false
        alarmAudioRef := s.alarmAudioRef.map Audio.play
        isTimerEndPopupOpen := true } := by
  simp [timerEffect, h]

theorem commit_of_nonzero (prev next : TimerState) (h : next.timer ≠ 0) :
    commit prev next = next := by
  have h1 : timerEffect next = next := timerEffect_of_nonzero next h
  have h2 : depsChanged next next = false := by simp [depsChanged]
  simp [commit, rerender, h1, h2]

theorem commit_of_zero_running (prev next : TimerState) (hd : depsChanged prev next = true)
    (h0 : next.timer = 0) (hr : next.isTimerRunning = true) :
    commit prev next =
      { next with
        isTimerRunning := false
        alarmAudioRef := (next.alarmAudioRef.map Audio.play).map Audio.play
        isTimerEndPopupOpen := true } := by
  have h1 := timerEffect_of_zero next h0
  have h2 : depsChanged next (timerEffect next) = true := by
    rw [h1]; simp [depsChanged, hr]
  have h3 : timerEffect (timerEffect next) = _ := timerEffect_of_zero (timerEffect next)
    (by rw [h1]; exact h0)
  unfold commit
  simp only [rerender, hd, h2, if_true]
  rw [h3, h1]

theorem commit_of_zero_stopped (prev next : TimerState) (hd : depsChanged prev next = true)
    (h0 : next.timer = 0) (hr : next.isTimerRunning = false) :
    commit prev next =
      { next with
        isTimerRunning := false
        alarmAudioRef := next.alarmAudioRef.map Audio.play
        isTimerEndPopupOpen := true } := by
  have h1 := timerEffect_of_zero next h0
  have h2 : depsChanged next (timerEffect next) = false := by
    rw [h1]; simp [depsChanged, hr]
  unfold commit
  simp only [rerender, hd, h2, if_true]
  rw [h1]; rfl

theorem commit_timer (prev next : TimerState) : (commit prev next).timer = next.timer := by
  by_cases h0 : next.timer = 0
  · by_cases hd : depsChanged prev next = true
    · cases hr : next.isTimerRunning
      · rw [commit_of_zero_stopped prev next hd h0 hr]
      · rw [commit_of_zero_running prev next hd h0 hr]
    · rw [commit_of_unchanged prev next (by simpa using hd)]
  · rw [commit_of_nonzero prev next h0]

theorem commit_settled (prev next : TimerState) (h : Settled prev) :
    Settled (commit prev next) := by
  intro ht
  rw [commit_timer] at ht
  by_cases hd : depsChanged prev next = true
  · cases hr : next.isTimerRunning
    · rw [commit_of_zero_stopped prev next hd ht hr]
    · rw [commit_of_zero_running prev next hd ht hr]
  · have hd' : depsChanged prev next = false := by simpa using hd
    rw [commit_of_unchanged prev next hd']
    simp [depsChanged] at hd'
    rw [← hd'.1]
    exact h (by rw [hd'.2]; exact ht)

theorem mounted_settled : Settled mounted := by decide

/-! ## Counting down -/

theorem ticks_succ (n : Nat) (s : TimerState) : ticks (n + 1) s = tick (ticks n s) := by
  induction n generalizing s with
  | zero => rfl
  | succ n ih =>
    show ticks (n + 1) (tick s) = tick (ticks n (tick s))
    exact ih (tick s)

theorem tick_of_not_armed (s : TimerState) (h : intervalArmed s = false) : tick s = s := by
  simp [tick, h]

theorem tick_of_not_pos (s : TimerState) (h : ¬ 0 < s.timer) : tick s = s := by
  apply tick_of_not_armed
  simp [intervalArmed, h]

theorem tick_of_gt_one (s : TimerState) (hr : s.isTimerRunning = true) (h : 1 < s.timer) :
    tick s = { s with timer := s.timer - 1 } := by
  have ha : intervalArmed s = true := by
    simp only [intervalArmed, hr, Bool.true_and, decide_eq_true_eq]; omega
  have hn : (intervalCallback s).timer ≠ 0 := by
    show s.timer - 1 ≠ 0
    omega
  simp only [tick, ha, if_true]
  rw [commit_of_nonzero s _ hn]
  rfl

theorem tick_of_one (s : TimerState) (hr : s.isTimerRunning = true) (h : s.timer = 1) :
    tick s =
      { s with
        timer := 0
        isTimerRunning := false
        alarmAudioRef := (s.alarmAudioRef.map Audio.play).map Audio.play
        isTimerEndPopupOpen := true } := by
  have ha : intervalArmed s = true := by
    simp [intervalArmed, hr, h]
  have h0 : (intervalCallback s).timer = 0 := by
    show s.timer - 1 = 0
    omega
  have hd : depsChanged s (intervalCallback s) = true := by
    simp [depsChanged, intervalCallback, h]
  simp only [tick, ha, if_true]
  rw [commit_of_zero_running s _ hd h0 hr]
  simp [intervalCallback, h]

theorem tick_timer_le (s : TimerState) : (tick s).timer ≤ s.timer := by
  by_cases ha : intervalArmed s = true
  · simp only [tick, ha, if_true, commit_timer]
    show s.timer - 1 ≤ s.timer
    omega
  · rw [tick_of_not_armed s (by simpa using ha)]

theorem tick_timer_nonneg (s : TimerState) (h : 0 ≤ s.timer) : 0 ≤ (tick s).timer := by
  by_cases ha : intervalArmed s = true
  · have hp : 0 < s.timer := by
      simp only [intervalArmed, Bool.and_eq_true, decide_eq_true_eq] at ha
      exact ha.2
    simp only [tick, ha, if_true, commit_timer]
    show 0 ≤ s.timer - 1
    omega
  · rw [tick_of_not_armed s (by simpa using ha)]
    exact h

theorem ticks_timer_nonneg (n : Nat) (s : TimerState) (h : 0 ≤ s.timer) :
    0 ≤ (ticks n s).timer := by
  induction n with
  | zero => exact h
  | succ n ih =>
    rw [ticks_succ]
    exact tick_timer_nonneg _ ih

theorem ticks_countdown (j : Nat) : ∀ s : TimerState, s.isTimerRunning = true →
    (j : Int) < s.timer → ticks j s = { s with timer := s.timer - j } := by
  induction j with
  | zero => intro s _ _; simp [ticks]
  | succ j ih =>
    intro s hr hlt
    have h1 : 1 < s.timer := by push_cast at hlt; omega
    show ticks j (tick s) = _
    rw [tick_of_gt_one s hr h1]
    have h2 : (j : Int) < s.timer - 1 := by push_cast at hlt; omega
    rw [ih { s with timer := s.timer - 1 } hr h2]
    simp only [TimerState.mk.injEq, and_true, true_and]
    push_cast
    ring

theorem ticks_expire (n : Nat) (s : TimerState) (hn : 0 < n) (ht : s.timer = n)
    (hr : s.isTimerRunning = true) :
    ticks n s =
      { s with
        timer := 0
        isTimerRunning := false
        alarmAudioRef := (s.alarmAudioRef.map Audio.play).map Audio.play
        isTimerEndPopupOpen := true } := by
  obtain ⟨m, rfl⟩ : ∃ m, n = m + 1 := ⟨n - 1, by omega⟩
  rw [ticks_succ, ticks_countdown m s hr (by rw [ht]; push_cast; omega)]
  have h1 : s.timer - m = 1 := by rw [ht]; push_cast; omega
  rw [tick_of_one { s with timer := s.timer - m } hr h1]

theorem ticks_of_not_armed (k : Nat) (s : TimerState) (h : intervalArmed s = false) :
    ticks k s = s := by
  induction k with
  | zero => rfl
  | succ k ih => rw [ticks_succ, ih, tick_of_not_armed s h]

/-! ## White space -/

theorem trim_eq_empty_iff (s : String) :
    trim s = "" ↔ ∀ c ∈ s.data, isStrWhiteSpaceChar c = true := by
  unfold trim
  rw [String.ext_iff]
  show ((s.data.dropWhile isStrWhiteSpaceChar).reverse.dropWhile isStrWhiteSpaceChar).reverse = []
    ↔ _
  rw [List.reverse_eq_nil_iff, List.dropWhile_eq_nil_iff]
  constructor
  · intro h
    have h1 : ∀ x ∈ s.data.dropWhile isStrWhiteSpaceChar, isStrWhiteSpaceChar x = true :=
      fun x hx => h x (List.mem_reverse.mpr hx)
    have h2 := (List.dropWhile_eq_nil_iff).mpr h1
    rw [List.dropWhile_idempotent] at h2
    exact (List.dropWhile_eq_nil_iff).mp h2
  · intro h x hx
    have h2 := (List.dropWhile_eq_nil_iff).mpr h
    rw [h2] at hx
    simp at hx

/-! ## Claims about the timer -/

/-- C1 (as stated, refuted): changing the minutes to 5 while the timer is
running sets the remaining seconds to 300 but leaves `isTimerRunning` true. -/
theorem configure_while_running_counterexample :
    numberToString 5 = "5" ∧
    ¬ ((dispatch (handleCustomTimerChange (numberToString 5))
          { mounted with isTimerRunning := true }).timer = 5 * 60 ∧
        (dispatch (handleCustomTimerChange (numberToString 5))
          { mounted with isTimerRunning := true }).isTimerRunning = false) := by
  decide

/-- C1 (amended): for every integer `m ≥ 1` whose seconds `m * 60` are a safe
integer and every prior state, after `handleCustomTimerChange` on an input
that `parseInt` reads as `m` (the decimal numeral of `m` is one) and the render
that follows, `customTimer` is `m` and `timer` is `m * 60`, a safe integer,
while `isTimerRunning`, the popup flag and the alert handle keep their prior
values. -/
theorem configure_sets_timer (m : Int) (s : TimerState) (hm : 1 ≤ m)
    (hb : SafeInteger (m * 60)) :
    parseInt (numberToString m) = some m ∧
    SafeInteger m ∧
    ∀ input : String, parseInt input = some m →
      dispatch (handleCustomTimerChange input) s
        = { s with customTimer := m, timer := m * 60 } ∧
      SafeInteger (dispatch (handleCustomTimerChange input) s).timer := by
  have hsafe : SafeInteger m := by
    unfold SafeInteger at *
    omega
  refine ⟨parseInt_numberToString m, hsafe, ?_⟩
  intro input hp
  have hne : m ≠ 0 := by omega
  have hh : handleCustomTimerChange input s
      = { s with customTimer := m, timer := m * 60 } := by
    simp [handleCustomTimerChange, hp, hne]
  have hd : dispatch (handleCustomTimerChange input) s
      = { s with customTimer := m, timer := m * 60 } := by
    unfold dispatch
    rw [hh]
    exact commit_of_nonzero s _ (by show m * 60 ≠ 0; omega)
  refine ⟨hd, ?_⟩
  rw [hd]
  exact hb

theorem configure_sets_timer_witness :
    dispatch (handleCustomTimerChange "40") { mounted with timer := 7, isTimerRunning := true }
      = { timer := 2400, customTimer := 40, isTimerRunning := true,
          isTimerEndPopupOpen := false,
          alarmAudioRef := some { src := "/sounds/timerEnd.mp3" } } :=
  ((configure_sets_timer 40 { mounted with timer := 7, isTimerRunning := true } (by decide)
      (by decide)).2.2 "40" (by decide)).1

/-- C2: from every state with `timer ≥ 0` (running or not), along every
sequence of ticks the timer never goes below 0 and never increases; a tick
that changes the timer found it above 0 and lowered it by exactly 1, and a
tick at `timer ≤ 0` changes nothing. -/
theorem ticks_nonincreasing_nonneg (s : TimerState) (h0 : 0 ≤ s.timer) (k : Nat) :
    0 ≤ (ticks k s).timer ∧
    (ticks (k + 1) s).timer ≤ (ticks k s).timer ∧
    ((ticks (k + 1) s).timer ≠ (ticks k s).timer →
      0 < (ticks k s).timer ∧ (ticks (k + 1) s).timer = (ticks k s).timer - 1) ∧
    (¬ 0 < (ticks k s).timer → ticks (k + 1) s = ticks k s) := by
  refine ⟨ticks_timer_nonneg k s h0, ?_, ?_, ?_⟩
  · rw [ticks_succ]
    exact tick_timer_le _
  · rw [ticks_succ]
    intro hne
    by_cases ha : intervalArmed (ticks k s) = true
    · have hp : 0 < (ticks k s).timer := by
        simp only [intervalArmed, Bool.and_eq_true, decide_eq_true_eq] at ha
        exact ha.2
      refine ⟨hp, ?_⟩
      simp only [tick, ha, if_true, commit_timer]
      rfl
    · rw [tick_of_not_armed _ (by simpa using ha)] at hne
      exact absurd rfl hne
  · intro hp
    rw [ticks_succ]
    exact tick_of_not_pos _ hp

theorem ticks_nonincreasing_nonneg_witness :
    0 ≤ (ticks 2 { mounted with timer := 2, isTimerRunning := true }).timer ∧
    (ticks (2 + 1) { mounted with timer := 2, isTimerRunning := true }).timer
      ≤ (ticks 2 { mounted with timer := 2, isTimerRunning := true }).timer ∧
    ticks (2 + 1) { mounted with timer := 2, isTimerRunning := true }
      = ticks 2 { mounted with timer := 2, isTimerRunning := true } :=
  ⟨(ticks_nonincreasing_nonneg { mounted with timer := 2, isTimerRunning := true }
      (by decide) 2).1,
   (ticks_nonincreasing_nonneg { mounted with timer := 2, isTimerRunning := true }
      (by decide) 2).2.1,
   (ticks_nonincreasing_nonneg { mounted with timer := 2, isTimerRunning := true }
      (by decide) 2).2.2.2 (by decide)⟩

/-- C3: from every running state with `timer = n > 0`, `n` a safe integer,
the first `n - 1` ticks only lower the timer, by one each, through safe
integers; the `n`-th tick leaves `timer = 0`, `isTimerRunning = false` and the
popup open, and every later tick leaves that state unchanged. -/
theorem expiry_after_n_ticks (s : TimerState) (n : Nat) (hn : 0 < n) (ht : s.timer = n)
    (hr : s.isTimerRunning = true) (hb : SafeInteger s.timer) :
    (∀ j, j < n → ticks j s = { s with timer := s.timer - j }) ∧
    (∀ j, j ≤ n → SafeInteger (ticks j s).timer) ∧
    (ticks n s).timer = 0 ∧
    (ticks n s).isTimerRunning = false ∧
    (ticks n s).isTimerEndPopupOpen = true ∧
    (∀ k, ticks k (ticks n s) = ticks n s) := by
  have he := ticks_expire n s hn ht hr
  have hc : ∀ j, j < n → ticks j s = { s with timer := s.timer - j } := by
    intro j hj
    exact ticks_countdown j s hr (by rw [ht]; exact_mod_cast hj)
  refine ⟨hc, ?_, ?_, ?_, ?_, ?_⟩
  · intro j hj
    rcases Nat.lt_or_eq_of_le hj with hlt | heq
    · rw [hc j hlt]
      show SafeInteger (s.timer - j)
      unfold SafeInteger at *
      omega
    · rw [heq, he]
      show SafeInteger 0
      decide
  · rw [he]
  · rw [he]
  · rw [he]
  · intro k
    apply ticks_of_not_armed
    rw [he]
    rfl

theorem expiry_after_n_ticks_witness :
    (∀ j, j < 3 → ticks j { mounted with timer := 3, isTimerRunning := true }
      = { ({ mounted with timer := 3, isTimerRunning := true } : TimerState) with
          timer := ({ mounted with timer := 3, isTimerRunning := true } : TimerState).timer - j }) ∧
    (ticks 3 { mounted with timer := 3, isTimerRunning := true }).timer = 0 ∧
    (ticks 3 { mounted with timer := 3, isTimerRunning := true }).isTimerRunning = false ∧
    (ticks 3 { mounted with timer := 3, isTimerRunning := true }).isTimerEndPopupOpen = true ∧
    (∀ k, ticks k (ticks 3 { mounted with timer := 3, isTimerRunning := true })
      = ticks 3 { mounted with timer := 3, isTimerRunning := true }) :=
  ⟨(expiry_after_n_ticks { mounted with timer := 3, isTimerRunning := true } 3
      (by decide) rfl rfl (by decide)).1,
   (expiry_after_n_ticks { mounted with timer := 3, isTimerRunning := true } 3
      (by decide) rfl rfl (by decide)).2.2⟩

/-- C4 (the code at the claim's scenario): after minutes are set to 25, the
timer is started and 1500 ticks have elapsed, the state is expired and the
alert handle has received two `play()` invocations, not one: the expiry branch
of the timer effect runs once for the tick to 0 and once more for the change of
`isTimerRunning` that it made itself. -/
theorem alarm_play_calls_on_expiry :
    (ticks 1500 (dispatch toggleTimer
        (dispatch (handleCustomTimerChange "25") mounted))).timer = 0 ∧
    (ticks 1500 (dispatch toggleTimer
        (dispatch (handleCustomTimerChange "25") mounted))).isTimerEndPopupOpen = true ∧
    (ticks 1500 (dispatch toggleTimer
        (dispatch (handleCustomTimerChange "25") mounted))).alarmAudioRef
      = some { src := "/sounds/timerEnd.mp3", paused := false, currentTime := 0, playCalls := 2 } := by
  have hs : dispatch toggleTimer (dispatch (handleCustomTimerChange "25") mounted)
      = { mounted with isTimerRunning := true } := by decide
  rw [hs, ticks_expire 1500 { mounted with isTimerRunning := true } (by decide) rfl rfl]
  exact ⟨rfl, rfl, rfl⟩

/-- C5 (as stated, refuted): with `timer = 0`, the popup closed and the alert
silent, pressing start is not a no-op: the expiry branch of the timer effect
opens the popup and plays the alert. -/
theorem start_at_zero_counterexample :
    ¬ ((dispatch toggleTimer { mounted with timer := 0, customTimer := 0 }).timer
          = ({ mounted with timer := 0, customTimer := 0 } : TimerState).timer ∧
        (dispatch toggleTimer { mounted with timer := 0, customTimer := 0 }).isTimerRunning
          = ({ mounted with timer := 0, customTimer := 0 } : TimerState).isTimerRunning ∧
        (dispatch toggleTimer { mounted with timer := 0, customTimer := 0 }).isTimerEndPopupOpen
          = ({ mounted with timer := 0, customTimer := 0 } : TimerState).isTimerEndPopupOpen ∧
        (dispatch toggleTimer { mounted with timer := 0, customTimer := 0 }).alarmAudioRef
          = ({ mounted with timer := 0, customTimer := 0 } : TimerState).alarmAudioRef) := by
  decide

/-- C5 (amended): `toggleTimer` pressed while not running, followed by the
timer effect.  If `timer > 0` the only change is that `isTimerRunning` becomes
true.  If `timer = 0` then `timer` and `isTimerRunning` end as they were (0 and
false) and `customTimer` is untouched, but the expiry branch has run: the popup
is open and the alert handle, if present, is playing. -/
theorem start_when_not_running (s : TimerState) (hr : s.isTimerRunning = false) :
    (0 < s.timer → dispatch toggleTimer s = { s with isTimerRunning := true }) ∧
    (s.timer = 0 →
      (dispatch toggleTimer s).timer = 0 ∧
      (dispatch toggleTimer s).isTimerRunning = false ∧
      (dispatch toggleTimer s).customTimer = s.customTimer ∧
      (dispatch toggleTimer s).isTimerEndPopupOpen = true ∧
      ∀ a ∈ (dispatch toggleTimer s).alarmAudioRef, a.paused = false) := by
  have ht : toggleTimer s = { s with isTimerRunning := true } := by
    simp [toggleTimer, hr]
  constructor
  · intro hp
    unfold dispatch
    rw [ht]
    exact commit_of_nonzero s _ (by show s.timer ≠ 0; omega)
  · intro h0
    have hd : depsChanged s { s with isTimerRunning := true } = true := by
      simp [depsChanged, hr]
    unfold dispatch
    rw [ht, commit_of_zero_running s _ hd h0 rfl]
    refine ⟨h0, rfl, rfl, rfl, ?_⟩
    intro a ha
    cases hs : s.alarmAudioRef with
    | none => simp [hs] at ha
    | some b =>
      simp [hs] at ha
      rw [← ha]
      rfl

theorem start_when_not_running_witness :
    dispatch toggleTimer mounted = { mounted with isTimerRunning := true } ∧
    (dispatch toggleTimer { mounted with timer := 0, customTimer := 0 }).isTimerRunning = false ∧
    (dispatch toggleTimer { mounted with timer := 0, customTimer := 0 }).isTimerEndPopupOpen
      = true :=
  ⟨(start_when_not_running mounted rfl).1 (by decide),
   ((start_when_not_running { mounted with timer := 0, customTimer := 0 } rfl).2 rfl).2.1,
   ((start_when_not_running { mounted with timer := 0, customTimer := 0 } rfl).2 rfl).2.2.2.1⟩

/-- C6 (the code at the claim's inputs): the empty string and `0` are not
rejected but stored as 0 minutes, which sets `timer` to 0 and fires the expiry
branch (popup open, alert played); `-5` is stored as it is and leaves `timer`
negative, where a started timer neither counts down nor expires. -/
theorem invalid_minutes_are_stored :
    dispatch (handleCustomTimerChange "") mounted
      = { timer := 0, customTimer := 0, isTimerRunning := false, isTimerEndPopupOpen := true,
          alarmAudioRef := some { src := "/sounds/timerEnd.mp3", paused := false, currentTime := 0,
                                  playCalls := 1 } } ∧
    dispatch (handleCustomTimerChange "0") mounted
      = dispatch (handleCustomTimerChange "") mounted ∧
    dispatch (handleCustomTimerChange "-5") mounted
      = { mounted with timer := -300, customTimer := -5 } ∧
    tick (dispatch toggleTimer (dispatch (handleCustomTimerChange "-5") mounted))
      = { mounted with timer := -300, customTimer := -5, isTimerRunning := true } := by
  decide

/-- C7 (as stated, refuted): while the timer is running with 25 minutes
configured, `resetTimer` stops the run and `handleCustomTimerChange` on `25`
does not, so the two results differ in `isTimerRunning`. -/
theorem reset_vs_configure_counterexample :
    numberToString 25 = "25" ∧
    ¬ ((dispatch resetTimer { mounted with isTimerRunning := true }).timer
          = (dispatch (handleCustomTimerChange (numberToString 25))
              { mounted with isTimerRunning := true }).timer ∧
        (dispatch resetTimer { mounted with isTimerRunning := true }).isTimerRunning
          = (dispatch (handleCustomTimerChange (numberToString 25))
              { mounted with isTimerRunning := true }).isTimerRunning ∧
        (dispatch resetTimer { mounted with isTimerRunning := true }).isTimerEndPopupOpen
          = (dispatch (handleCustomTimerChange (numberToString 25))
              { mounted with isTimerRunning := true }).isTimerEndPopupOpen) := by
  decide

/-- C7 (amended): for every state whose configured seconds `customTimer * 60`
are a safe integer, `resetTimer` is `handleCustomTimerChange` on the numeral of
`customTimer` followed by stopping the run and by pausing and rewinding the
alert handle; and for every such settled state, after rendering, the two agree
on `timer`, `customTimer` and the popup flag, `resetTimer` leaves
`isTimerRunning` false, and they agree on `isTimerRunning` as well whenever the
timer was not running. -/
theorem reset_is_configure_then_stop (s : TimerState)
    (hb : SafeInteger (s.customTimer * 60)) :
    SafeInteger s.customTimer ∧
    resetTimer s
      = { handleCustomTimerChange (numberToString s.customTimer) s with
          isTimerRunning := false
          alarmAudioRef := silenceAlarm s.alarmAudioRef } ∧
    (Settled s →
      (dispatch resetTimer s).timer
        = (dispatch (handleCustomTimerChange (numberToString s.customTimer)) s).timer ∧
      (dispatch resetTimer s).customTimer
        = (dispatch (handleCustomTimerChange (numberToString s.customTimer)) s).customTimer ∧
      (dispatch resetTimer s).isTimerEndPopupOpen
        = (dispatch (handleCustomTimerChange (numberToString s.customTimer)) s).isTimerEndPopupOpen ∧
      (dispatch resetTimer s).isTimerRunning = false ∧
      (s.isTimerRunning = false →
        (dispatch resetTimer s).isTimerRunning
          = (dispatch (handleCustomTimerChange (numberToString s.customTimer)) s).isTimerRunning)) := by
  have hh : handleCustomTimerChange (numberToString s.customTimer) s
      = { s with timer := s.customTimer * 60 } := by
    by_cases hc : s.customTimer = 0
    · simp [handleCustomTimerChange, parseInt_numberToString, hc]
    · simp [handleCustomTimerChange, parseInt_numberToString, hc]
  have hsafe : SafeInteger s.customTimer := by
    unfold SafeInteger at *
    omega
  refine ⟨hsafe, by rw [hh]; rfl, ?_⟩
  intro hset
  unfold dispatch
  rw [hh]
  by_cases hc : s.customTimer = 0
  · -- zero minutes configured: the new timer value is 0
    have hz : s.customTimer * 60 = 0 := by rw [hc]; rfl
    by_cases ht : s.timer = 0
    · -- nothing changes a dependency: no effect runs
      have hrun := hset ht
      have h1 : depsChanged s (resetTimer s) = false := by
        simp [depsChanged, resetTimer, hrun, ht, hz]
      have h2 : depsChanged s { s with timer := s.customTimer * 60 } = false := by
        simp [depsChanged, ht, hz]
      rw [commit_of_unchanged _ _ h1, commit_of_unchanged _ _ h2]
      exact ⟨rfl, rfl, rfl, rfl, fun h => by simp [resetTimer, h]⟩
    · have h1 : depsChanged s (resetTimer s) = true := by
        simp [depsChanged, resetTimer, hz, ht]
      have h2 : depsChanged s { s with timer := s.customTimer * 60 } = true := by
        simp [depsChanged, hz, ht]
      rw [commit_of_zero_stopped _ _ h1 hz rfl]
      rcases Bool.eq_false_or_eq_true s.isTimerRunning with hr | hr
      · rw [commit_of_zero_running _ _ h2 hz hr]
        exact ⟨rfl, rfl, rfl, rfl, fun h => absurd (hr.symm.trans h) (by decide)⟩
      · rw [commit_of_zero_stopped _ _ h2 hz hr]
        exact ⟨rfl, rfl, rfl, rfl, fun _ => rfl⟩
  · have hnz : s.customTimer * 60 ≠ 0 := by omega
    rw [commit_of_nonzero s (resetTimer s) hnz, commit_of_nonzero s _ hnz]
    exact ⟨rfl, rfl, rfl, rfl, fun h => by simp [resetTimer, h]⟩

theorem reset_is_configure_then_stop_witness :
    resetTimer { mounted with timer := 7, customTimer := 40, isTimerRunning := true }
      = { timer := 2400, customTimer := 40, isTimerRunning := false,
          isTimerEndPopupOpen := false,
          alarmAudioRef := some { src := "/sounds/timerEnd.mp3" } } ∧
    (dispatch resetTimer { mounted with timer := 7, customTimer := 40 }).timer
      = (dispatch (handleCustomTimerChange (numberToString 40))
          { mounted with timer := 7, customTimer := 40 }).timer ∧
    (dispatch resetTimer { mounted with timer := 7, customTimer := 40 }).isTimerRunning
      = (dispatch (handleCustomTimerChange (numberToString 40))
          { mounted with timer := 7, customTimer := 40 }).isTimerRunning ∧
    (dispatch resetTimer { mounted with timer := 7, customTimer := 40 }).timer = 2400 :=
  ⟨((reset_is_configure_then_stop
        { mounted with timer := 7, customTimer := 40, isTimerRunning := true }
        (by decide)).2.1).trans (by decide),
   ((reset_is_configure_then_stop { mounted with timer := 7, customTimer := 40 }
        (by decide)).2.2 (by decide)).1,
   ((reset_is_configure_then_stop { mounted with timer := 7, customTimer := 40 }
        (by decide)).2.2 (by decide)).2.2.2.2 rfl,
   by decide⟩

/-- C8: `handleAddMinute` raises `timer` by exactly 60 in every state; from
every expired state (`timer = 0`, not running, popup open) the rendered result
has `timer = 60`, `isTimerRunning = true`, the popup closed and nothing else
changed but the alert handle, which is paused at position 0. -/
theorem add_minute_extends (s : TimerState) :
    (dispatch handleAddMinute s).timer = s.timer + 60 ∧
    (s.timer = 0 → s.isTimerRunning = false → s.isTimerEndPopupOpen = true →
      dispatch handleAddMinute s
        = { s with
            timer := 60
            isTimerRunning := true
            isTimerEndPopupOpen := false
            alarmAudioRef := silenceAlarm s.alarmAudioRef } ∧
      ∀ a ∈ (dispatch handleAddMinute s).alarmAudioRef, a.paused = true ∧ a.currentTime = 0) := by
  refine ⟨by unfold dispatch; rw [commit_timer]; rfl, ?_⟩
  intro h0 _ _
  have hn : (handleAddMinute s).timer ≠ 0 := by
    show s.timer + 60 ≠ 0
    omega
  have hr : dispatch handleAddMinute s
      = { s with
          timer := 60
          isTimerRunning := true
          isTimerEndPopupOpen := false
          alarmAudioRef := silenceAlarm s.alarmAudioRef } := by
    unfold dispatch
    rw [commit_of_nonzero s _ hn]
    simp [handleAddMinute, h0]
  refine ⟨hr, ?_⟩
  rw [hr]
  intro a ha
  cases hs : s.alarmAudioRef with
  | none => simp [hs, silenceAlarm] at ha
  | some b =>
    simp [hs, silenceAlarm] at ha
    rw [← ha]
    exact ⟨rfl, rfl⟩

theorem add_minute_extends_witness :
    dispatch handleAddMinute (ticks 1 { mounted with timer := 1, isTimerRunning := true })
      = { timer := 60, customTimer := 25, isTimerRunning := true, isTimerEndPopupOpen := false,
          alarmAudioRef := some { src := "/sounds/timerEnd.mp3", paused := true, currentTime := 0,
                                  playCalls := 2 } } :=
  ((add_minute_extends (ticks 1 { mounted with timer := 1, isTimerRunning := true })).2
    (by decide) (by decide) (by decide)).1

/-- C9: in every state `handleStopTimer` sets `isTimerRunning` and the popup
flag to false, pauses the alert handle at position 0 and changes nothing else
(`timer` and `customTimer` in particular); and after rendering from any settled
state the result is still exactly that. -/
theorem stop_keeps_remaining_time (s : TimerState) :
    handleStopTimer s
      = { s with
          isTimerRunning := false
          isTimerEndPopupOpen := false
          alarmAudioRef := silenceAlarm s.alarmAudioRef } ∧
    (handleStopTimer s).timer = s.timer ∧
    (handleStopTimer s).customTimer = s.customTimer ∧
    (∀ a ∈ (handleStopTimer s).alarmAudioRef, a.paused = true ∧ a.currentTime = 0) ∧
    (Settled s → dispatch handleStopTimer s = handleStopTimer s) := by
  refine ⟨rfl, rfl, rfl, ?_, ?_⟩
  · intro a ha
    cases hs : s.alarmAudioRef with
    | none => simp [hs, handleStopTimer, silenceAlarm] at ha
    | some b =>
      simp [hs, handleStopTimer, silenceAlarm] at ha
      rw [← ha]
      exact ⟨rfl, rfl⟩
  · intro hset
    unfold dispatch
    by_cases h0 : s.timer = 0
    · apply commit_of_unchanged
      simp [depsChanged, handleStopTimer, hset h0]
    · exact commit_of_nonzero s _ h0

theorem stop_keeps_remaining_time_witness :
    Settled { mounted with timer := 1200, isTimerRunning := true } ∧
    dispatch handleStopTimer { mounted with timer := 1200, isTimerRunning := true }
      = handleStopTimer { mounted with timer := 1200, isTimerRunning := true } :=
  ⟨by decide,
   (stop_keeps_remaining_time { mounted with timer := 1200, isTimerRunning := true }).2.2.2.2
     (by decide)⟩

/-! ## Claims about the todo list -/

/-- C10: `handleAddTodo` leaves the list unchanged when the typed text is empty
or consists of white space only; otherwise the new list is the old list
followed by the single item with the text exactly as typed and `completed =
false`. -/
theorem add_todo_appends (todos : List TodoItem) (text : String) :
    ((∀ c ∈ text.data, isStrWhiteSpaceChar c = true) →
      (handleAddTodo { todos := todos, newTodo := text }).todos = todos) ∧
    ((∃ c ∈ text.data, isStrWhiteSpaceChar c = false) →
      (handleAddTodo { todos := todos, newTodo := text }).todos
        = todos ++ [{ text := text, completed := false }]) := by
  constructor
  · intro h
    have := (trim_eq_empty_iff text).mpr h
    simp [handleAddTodo, this]
  · intro ⟨c, hc, hw⟩
    have : trim text ≠ "" := by
      intro he
      have := (trim_eq_empty_iff text).mp he c hc
      rw [hw] at this
      cases this
    simp [handleAddTodo, this]

theorem add_todo_appends_witness :
    (handleAddTodo { todos := [{ text := "Walk", completed := true }], newTodo := "  " }).todos
      = [{ text := "Walk", completed := true }] ∧
    (handleAddTodo { todos := [{ text := "Walk", completed := true }],
                     newTodo := "Buy milk" }).todos
      = [{ text := "Walk", completed := true }] ++ [{ text := "Buy milk", completed := false }] :=
  ⟨(add_todo_appends [{ text := "Walk", completed := true }] "  ").1 (by decide),
   (add_todo_appends [{ text := "Walk", completed := true }] "Buy milk").2
     ⟨'B', by decide, by decide⟩⟩

/-! ## Deleting and completing todos -/

theorem enumFrom_filter_ne_of_lt (l : List TodoItem) (n k : Nat) (h : k < n) :
    ((List.enumFrom n l).filter (fun p => p.1 != k)).map Prod.snd = l := by
  induction l generalizing n with
  | nil => rfl
  | cons x xs ih =>
    have hne : (n != k) = true := by simp; omega
    simp only [List.enumFrom_cons, List.filter_cons, hne, if_true, List.map_cons]
    rw [ih (n + 1) (by omega)]

theorem enumFrom_filter_ne (l : List TodoItem) (n i : Nat) :
    ((List.enumFrom n l).filter (fun p => p.1 != n + i)).map Prod.snd
      = l.take i ++ l.drop (i + 1) := by
  induction l generalizing n i with
  | nil => simp
  | cons x xs ih =>
    cases i with
    | zero =>
      have hne : (n != n + 0) = false := by simp
      simp only [List.enumFrom_cons, List.filter_cons, hne, Bool.false_eq_true, if_false,
        List.take_zero, List.nil_append, zero_add, List.drop_succ_cons, List.drop_zero]
      exact enumFrom_filter_ne_of_lt xs (n + 1) (n + 0) (by omega)
    | succ j =>
      have hne : (n != n + (j + 1)) = true := by simp
      have hidx : n + (j + 1) = (n + 1) + j := by omega
      simp only [List.enumFrom_cons, List.filter_cons, hne, if_true, List.map_cons,
        List.take_succ_cons, List.cons_append, List.drop_succ_cons]
      rw [hidx, ih (n + 1) j]

theorem handleDeleteTodo_todos (i : Nat) (s : TodoState) :
    (handleDeleteTodo i s).todos = s.todos.take i ++ s.todos.drop (i + 1) := by
  have h := enumFrom_filter_ne s.todos 0 i
  simp only [zero_add] at h
  exact h

/-- C11: `handleDeleteTodo` keeps the items before index `i` and the items
after it, in their order and unchanged, and leaves the text field alone.  For
`i` inside the list that is the list with the `i`-th item erased, one item
shorter; for `i` outside the list it is the list itself. -/
theorem delete_todo_removes_index (i : Nat) (s : TodoState) :
    (handleDeleteTodo i s).todos = s.todos.take i ++ s.todos.drop (i + 1) ∧
    (handleDeleteTodo i s).newTodo = s.newTodo ∧
    (i < s.todos.length →
      (handleDeleteTodo i s).todos = s.todos.eraseIdx i ∧
      (handleDeleteTodo i s).todos.length + 1 = s.todos.length ∧
      (∀ j, j < i → (handleDeleteTodo i s).todos[j]? = s.todos[j]?) ∧
      (∀ j, i ≤ j → (handleDeleteTodo i s).todos[j]? = s.todos[j + 1]?)) ∧
    (s.todos.length ≤ i → (handleDeleteTodo i s).todos = s.todos) := by
  have h := handleDeleteTodo_todos i s
  refine ⟨h, rfl, ?_, ?_⟩
  · intro hi
    have he : (handleDeleteTodo i s).todos = s.todos.eraseIdx i := by
      rw [h, List.eraseIdx_eq_take_drop_succ]
    refine ⟨he, ?_, ?_, ?_⟩
    · rw [he, List.length_eraseIdx, if_pos hi]
      omega
    · intro j hj
      rw [he, List.getElem?_eraseIdx, if_pos hj]
    · intro j hj
      rw [he, List.getElem?_eraseIdx, if_neg (by omega)]
  · intro hi
    rw [h, List.take_of_length_le hi, List.drop_of_length_le (by omega), List.append_nil]

theorem delete_todo_removes_index_witness :
    (handleDeleteTodo 1
        { todos := [{ text := "a", completed := false }, { text := "b", completed := true },
                    { text := "c", completed := false }] }).todos
      = [{ text := "a", completed := false }, { text := "c", completed := false }] ∧
    (handleDeleteTodo 3
        { todos := [{ text := "a", completed := false }, { text := "b", completed := true },
                    { text := "c", completed := false }] }).todos
      = [{ text := "a", completed := false }, { text := "b", completed := true },
         { text := "c", completed := false }] :=
  ⟨((delete_todo_removes_index 1
        { todos := [{ text := "a", completed := false }, { text := "b", completed := true },
                    { text := "c", completed := false }] }).2.2.1 (by decide)).1,
   (delete_todo_removes_index 3
        { todos := [{ text := "a", completed := false }, { text := "b", completed := true },
                    { text := "c", completed := false }] }).2.2.2 (by decide)⟩

/-! ## Volume -/

theorem volumeEffect_of_accepted (s : AudioState)
    (hs : s.soundSource = SoundSource.default ∨ s.soundSource = SoundSource.custom)
    (hv : 0 ≤ s.volume ∧ s.volume ≤ 1) :
    volumeEffect s
      = { s with
          audioRef := s.audioRef.map (fun a => { a with volume := s.volume })
          timerAudioRef := { s.timerAudioRef with volume := s.volume }
          taskAudioRef := { s.taskAudioRef with volume := s.volume } } := by
  unfold volumeEffect
  rw [if_pos hs, if_pos hv]

theorem startAmbient_of_accepted (src : String) (s : AudioState)
    (hv : 0 ≤ s.volume ∧ s.volume ≤ 1) :
    startAmbient src s
      = { s with
          detached := s.detached ++ s.audioRef.toList
          audioRef := some { src := src, loop := true, volume := s.volume, paused := false,
                             playCalls := 1 }
          isPlaying := true } := by
  unfold startAmbient Audio.setVolume
  simp only [if_pos hv]
  rfl

theorem startAmbient_of_rejected (src : String) (s : AudioState)
    (hv : ¬ (0 ≤ s.volume ∧ s.volume ≤ 1)) :
    startAmbient src s
      = { s with
          detached := s.detached ++ s.audioRef.toList
          audioRef := some { src := src, loop := true } } := by
  unfold startAmbient Audio.setVolume
  simp only [if_neg hv]

theorem mountedAudio_eq :
    mountedAudio
      = { isPlaying := true
          audioRef := some { src := "/sounds/nature.mp3", loop := true, volume := 1 / 2,
                             paused := false, playCalls := 1 }
          timerAudioRef := { src := "/sounds/timerEnd.mp3", volume := 1 / 2 }
          taskAudioRef := { src := "/sounds/timerEnd.mp3", volume := 1 / 2 } } := by
  have hv : (0 : Rat) ≤ 1 / 2 ∧ (1 / 2 : Rat) ≤ 1 := by norm_num
  have h1 : soundSourceEffect {} = {} := rfl
  have h2 := volumeEffect_of_accepted {} (Or.inl rfl) hv
  unfold mountedAudio
  rw [h1, h2]
  have h3 : startupEffect
      { ({} : AudioState) with
        audioRef := ({} : AudioState).audioRef.map
          (fun a => { a with volume := ({} : AudioState).volume })
        timerAudioRef := { ({} : AudioState).timerAudioRef with volume := ({} : AudioState).volume }
        taskAudioRef := { ({} : AudioState).taskAudioRef with volume := ({} : AudioState).volume } }
      = startAmbient (defaultSounds "nature")
      { ({} : AudioState) with
        audioRef := ({} : AudioState).audioRef.map
          (fun a => { a with volume := ({} : AudioState).volume })
        timerAudioRef := { ({} : AudioState).timerAudioRef with volume := ({} : AudioState).volume }
        taskAudioRef := { ({} : AudioState).taskAudioRef with volume := ({} : AudioState).volume } } :=
    rfl
  rw [h3, startAmbient_of_accepted _ _ hv]
  have h4 : defaultSounds "nature" = "/sounds/nature.mp3" := by decide
  rw [h4]
  rfl

/-- C12 (as stated, refuted): the value 3/2 is stored as it is, not as
`min 1 (max 0 (3/2)) = 1`, so the state differs from the one after the value 1
and the stored volume is outside `[0, 1]`. -/
theorem volume_not_clamped_counterexample :
    ¬ ((handleVolumeChange (3 / 2) mountedAudio).volume = min 1 (max 0 (3 / 2))) ∧
    handleVolumeChange (3 / 2) mountedAudio ≠ handleVolumeChange 1 mountedAudio ∧
    ¬ ((handleVolumeChange (3 / 2) mountedAudio).volume ≤ 1) := by
  refine ⟨?_, ?_, ?_⟩
  · simp only [handleVolumeChange]
    norm_num
  · intro h
    have := congrArg AudioState.volume h
    simp only [handleVolumeChange] at this
    norm_num at this
  · simp only [handleVolumeChange]
    norm_num

/-- C12 (amended): `handleVolumeChange` stores the value it is given and
changes nothing else; for every value in `[0, 1]`, the range of the slider that
calls it, the stored volume equals `min 1 (max 0 v)` and lies in `[0, 1]`. -/
theorem volume_stored_as_given (v : Rat) (s : AudioState) :
    handleVolumeChange v s = { s with volume := v } ∧
    (0 ≤ v → v ≤ 1 →
      (handleVolumeChange v s).volume = min 1 (max 0 v) ∧
      0 ≤ (handleVolumeChange v s).volume ∧ (handleVolumeChange v s).volume ≤ 1) := by
  refine ⟨rfl, ?_⟩
  intro h0 h1
  refine ⟨?_, h0, h1⟩
  show v = min 1 (max 0 v)
  rw [max_eq_right h0, min_eq_right h1]

theorem volume_stored_as_given_witness :
    (handleVolumeChange (1 / 5) mountedAudio).volume = min 1 (max 0 (1 / 5)) ∧
    0 ≤ (handleVolumeChange (1 / 5) mountedAudio).volume ∧
    (handleVolumeChange (1 / 5) mountedAudio).volume ≤ 1 :=
  (volume_stored_as_given (1 / 5) mountedAudio).2 (by norm_num) (by norm_num)

theorem dispatch_volume_of_source (v : Rat) (s : AudioState) (hv : s.volume ≠ v)
    (hs : s.soundSource ≠ SoundSource.none) (h0 : 0 ≤ v) (h1 : v ≤ 1) :
    dispatchAudio (handleVolumeChange v) s
      = { s with
          volume := v
          audioRef := s.audioRef.map (fun a => { a with volume := v })
          timerAudioRef := { s.timerAudioRef with volume := v }
          taskAudioRef := { s.taskAudioRef with volume := v } } := by
  have hsrc : s.soundSource = SoundSource.default ∨ s.soundSource = SoundSource.custom := by
    cases hc : s.soundSource
    · exact absurd hc hs
    · exact Or.inl rfl
    · exact Or.inr rfl
  simp [dispatchAudio, renderAudio, handleVolumeChange, volumeEffect, hv, hsrc, h0, h1]

theorem dispatch_volume_of_none (v : Rat) (s : AudioState)
    (hs : s.soundSource = SoundSource.none) :
    dispatchAudio (handleVolumeChange v) s = { s with volume := v } := by
  simp [dispatchAudio, renderAudio, handleVolumeChange, volumeEffect, hs]

theorem map_pause_pause (r : Option Audio) :
    (r.map Audio.pause).map Audio.pause = r.map Audio.pause := by
  cases r <;> rfl

theorem map_pause_comp (r : Option Audio) :
    r.map (Audio.pause ∘ Audio.pause) = r.map Audio.pause := by
  cases r <;> rfl

theorem handleSoundSourceChange_none (s : AudioState) :
    handleSoundSourceChange SoundSource.none s
      = { s with
          soundSource := SoundSource.none
          isPlaying := false
          audioRef := s.audioRef.map Audio.pause } := by
  simp [handleSoundSourceChange, pauseCurrent, map_pause_comp]

theorem dispatch_source_none (s : AudioState) :
    (dispatchAudio (handleSoundSourceChange SoundSource.none) s).soundSource = SoundSource.none ∧
    (dispatchAudio (handleSoundSourceChange SoundSource.none) s).isPlaying = false ∧
    (dispatchAudio (handleSoundSourceChange SoundSource.none) s).audioRef
      = s.audioRef.map Audio.pause ∧
    (dispatchAudio (handleSoundSourceChange SoundSource.none) s).detached = s.detached ∧
    (dispatchAudio (handleSoundSourceChange SoundSource.none) s).volume = s.volume := by
  unfold dispatchAudio renderAudio
  rw [handleSoundSourceChange_none]
  by_cases hs : s.soundSource = SoundSource.none
  · simp [hs]
  · simp [hs, soundSourceEffect, soundSourceCleanup, volumeEffect, map_pause_comp]

/-- C13 (as stated, refuted): with the default source, after the volume changes
to 1/5 the ambient handle has volume 1/5 but the handle in `alarmAudioRef`, the
one the expiry branch plays, still has the volume 1 it was created with, also
when it is played at expiry; and with the source `none`, the handle that
`audioRef` still holds keeps its volume 1/2. -/
theorem alarm_volume_counterexample :
    (AppState.changeVolume (1 / 5) mountedApp).audio.audioRef.map Audio.volume = some (1 / 5) ∧
    ¬ ((AppState.changeVolume (1 / 5) mountedApp).timerState.alarmAudioRef.map Audio.volume
        = some (1 / 5)) ∧
    ¬ ((AppState.ticks 1500 (AppState.changeVolume (1 / 5)
          { mountedApp with timerState := { mounted with isTimerRunning := true } })
        ).timerState.alarmAudioRef.map Audio.volume = some (1 / 5)) ∧
    ¬ ((dispatchAudio (handleVolumeChange (1 / 5))
          (dispatchAudio (handleSoundSourceChange SoundSource.none) mountedAudio)
        ).audioRef.map Audio.volume = some (1 / 5)) := by
  refine ⟨?_, ?_, ?_, ?_⟩
  · have h := dispatch_volume_of_source (1 / 5) mountedAudio
      (by rw [mountedAudio_eq]; norm_num) (by rw [mountedAudio_eq]; decide)
      (by norm_num) (by norm_num)
    simp only [AppState.changeVolume, mountedApp, h]
    rw [mountedAudio_eq]
    rfl
  · simp only [AppState.changeVolume, mountedApp]
    show ¬ ((some (1 : Rat)) = some (1 / 5))
    norm_num
  · simp only [AppState.changeVolume, AppState.ticks]
    rw [ticks_expire 1500 { mounted with isTimerRunning := true } (by decide) rfl rfl]
    show ¬ ((some (1 : Rat)) = some (1 / 5))
    norm_num
  · obtain ⟨hsrc, _, href, _, _⟩ := dispatch_source_none mountedAudio
    rw [dispatch_volume_of_none _ _ hsrc]
    show ¬ ((dispatchAudio (handleSoundSourceChange SoundSource.none) mountedAudio).audioRef.map
      Audio.volume = some (1 / 5))
    rw [href, mountedAudio_eq]
    show ¬ ((some (1 / 2 : Rat)) = some (1 / 5))
    norm_num

/-- C13 (amended): for every volume `v` in `[0, 1]` different from the current
one, after `handleVolumeChange` and the render that follows: when the source is
`default` or `custom`, the ambient handle (if present) and the two chime
handles `timerAudioRef` and `taskAudioRef` have volume `v` and nothing else
changed; when the source is `none`, no handle is changed. -/
theorem volume_applied_to_handles (v : Rat) (s : AudioState) (hv : s.volume ≠ v)
    (h0 : 0 ≤ v) (h1 : v ≤ 1) :
    (s.soundSource ≠ SoundSource.none →
      dispatchAudio (handleVolumeChange v) s
        = { s with
            volume := v
            audioRef := s.audioRef.map (fun a => { a with volume := v })
            timerAudioRef := { s.timerAudioRef with volume := v }
            taskAudioRef := { s.taskAudioRef with volume := v } } ∧
      (∀ a ∈ (dispatchAudio (handleVolumeChange v) s).audioRef, a.volume = v) ∧
      (dispatchAudio (handleVolumeChange v) s).timerAudioRef.volume = v ∧
      (dispatchAudio (handleVolumeChange v) s).taskAudioRef.volume = v) ∧
    (s.soundSource = SoundSource.none →
      dispatchAudio (handleVolumeChange v) s = { s with volume := v }) := by
  refine ⟨?_, dispatch_volume_of_none v s⟩
  intro hs
  have h := dispatch_volume_of_source v s hv hs h0 h1
  refine ⟨h, ?_, by rw [h], by rw [h]⟩
  rw [h]
  intro a ha
  cases hr : s.audioRef with
  | none => simp [hr] at ha
  | some b =>
    simp [hr] at ha
    rw [← ha]

theorem volume_applied_to_handles_witness :
    (∀ a ∈ (dispatchAudio (handleVolumeChange (1 / 5)) mountedAudio).audioRef,
      a.volume = 1 / 5) ∧
    (dispatchAudio (handleVolumeChange (1 / 5)) mountedAudio).timerAudioRef.volume = 1 / 5 ∧
    (dispatchAudio (handleVolumeChange (1 / 5)) mountedAudio).taskAudioRef.volume = 1 / 5 :=
  ((volume_applied_to_handles (1 / 5) mountedAudio (by rw [mountedAudio_eq]; norm_num)
      (by norm_num) (by norm_num)).1 (by rw [mountedAudio_eq]; decide)).2

/-! ## One ambient stream -/

theorem startAmbient_detached (src : String) (s : AudioState) :
    (startAmbient src s).detached = s.detached ++ s.audioRef.toList := by
  unfold startAmbient
  simp only
  split <;> rfl

theorem apply_detached (op : AudioOp) (s : AudioState) :
    (op.apply s).detached = s.detached ∨
    (op.apply s).detached = s.detached ++ (s.audioRef.map Audio.pause).toList := by
  cases op with
  | soundSourceChange source =>
    simp only [AudioOp.apply, handleSoundSourceChange]
    split_ifs
    · right; rw [startAmbient_detached]; rfl
    · right; rw [startAmbient_detached]; rfl
    · left; rfl
    · left; rfl
  | defaultSoundChange newSound =>
    simp only [AudioOp.apply, handleDefaultSoundChange]
    split_ifs
    · right; rw [startAmbient_detached]; rfl
    · left; rfl
  | customSoundUpload file =>
    cases file with
    | none => left; rfl
    | some url =>
      right
      simp only [AudioOp.apply, handleCustomSoundUpload]
      rw [startAmbient_detached]
      rfl
  | customSoundInput file =>
    cases file with
    | none => left; rfl
    | some url =>
      right
      simp only [AudioOp.apply, customSoundInputChange]
      split <;> rfl
  | startup =>
    simp only [AudioOp.apply, startupEffect]
    cases hr : s.audioRef with
    | some a => left; rfl
    | none =>
      simp only
      split_ifs
      · left; rw [startAmbient_detached, hr]; simp
      · left; rw [startAmbient_detached, hr]; simp
      · left; rfl
  | firstClick =>
    left
    simp only [AudioOp.apply, onFirstClick]
    split <;> rfl
  | music =>
    left
    simp only [AudioOp.apply, toggleMusic]
    by_cases hsrc : s.soundSource = SoundSource.default ∨ s.soundSource = SoundSource.custom
    · rw [if_pos hsrc]
      cases s.audioRef <;> rfl
    · rw [if_neg hsrc]
  | settings =>
    left
    simp only [AudioOp.apply, toggleSettings]
    split_ifs <;> rfl
  | volumeChange newValue => left; rfl
  | sourceCleanup => left; rfl
  | sourceEffect =>
    left
    simp only [AudioOp.apply, soundSourceEffect]
    split_ifs
    · split
      · rfl
      · split <;> rfl
    · rfl
  | volumeEffectRun =>
    left
    simp only [AudioOp.apply, volumeEffect]
    split_ifs <;> rfl

theorem apply_detachedSilent (op : AudioOp) (s : AudioState) (h : DetachedSilent s) :
    DetachedSilent (op.apply s) := by
  intro a ha
  rcases apply_detached op s with hd | hd
  · rw [hd] at ha
    exact h a ha
  · rw [hd] at ha
    rcases List.mem_append.mp ha with ha | ha
    · exact h a ha
    · cases hr : s.audioRef with
      | none => simp [hr] at ha
      | some b =>
        simp [hr] at ha
        rw [ha]
        rfl

theorem runAudio_detachedSilent (ops : List AudioOp) (s : AudioState) (h : DetachedSilent s) :
    DetachedSilent (runAudio ops s) := by
  induction ops generalizing s with
  | nil => exact h
  | cons op ops ih => exact ih (op.apply s) (apply_detachedSilent op s h)

theorem playingCount_le_one (s : AudioState) (h : DetachedSilent s) : playingCount s ≤ 1 := by
  have hd : s.detached.filter (fun a => !a.paused) = [] := by
    rw [List.filter_eq_nil_iff]
    intro a ha
    simp [h a ha]
  unfold playingCount ambientObjects
  rw [List.filter_append, hd, List.append_nil]
  calc (s.audioRef.toList.filter (fun a => !a.paused)).length
      ≤ s.audioRef.toList.length := List.length_filter_le _ _
    _ ≤ 1 := by cases s.audioRef <;> simp

/-- C14: starting from any state in which the ambient objects that `audioRef`
no longer holds are paused (the state before mount, where no object exists, is
one), after every sequence of audio operations (`handleSoundSourceChange`,
`handleDefaultSoundChange`, `handleCustomSoundUpload`, the file-input handler,
the startup effect, the first-click listener, `toggleMusic`, `toggleSettings`,
`handleVolumeChange` and the effect bodies and cleanup) every detached object
is still paused, so at most one ambient object is playing. -/
theorem at_most_one_ambient_playing (ops : List AudioOp) (s : AudioState)
    (h : DetachedSilent s) :
    DetachedSilent (runAudio ops s) ∧ playingCount (runAudio ops s) ≤ 1 :=
  ⟨runAudio_detachedSilent ops s h, playingCount_le_one _ (runAudio_detachedSilent ops s h)⟩

theorem at_most_one_ambient_playing_witness :
    playingCount (runAudio
      [AudioOp.startup, AudioOp.defaultSoundChange "rain", AudioOp.defaultSoundChange "ocean",
       AudioOp.soundSourceChange SoundSource.custom, AudioOp.customSoundUpload (some "blob:a")]
      {}) ≤ 1 :=
  (at_most_one_ambient_playing
    [AudioOp.startup, AudioOp.defaultSoundChange "rain", AudioOp.defaultSoundChange "ocean",
     AudioOp.soundSourceChange SoundSource.custom, AudioOp.customSoundUpload (some "blob:a")]
    {} (fun a ha => by cases ha)).2

/-! ## Source selection and playback -/

/-- C15 (as stated, refuted): after the source is set to `none` in the mounted
component `isPlaying` is false, but `audioRef` is not empty: it still holds the
ambient object, paused. -/
theorem source_none_keeps_handle_counterexample :
    ¬ ((dispatchAudio (handleSoundSourceChange SoundSource.none) mountedAudio).audioRef = none ∧
        (dispatchAudio (handleSoundSourceChange SoundSource.none) mountedAudio).isPlaying
          = false) := by
  intro h
  have href := (dispatch_source_none mountedAudio).2.2.1
  rw [h.1, mountedAudio_eq] at href
  cases href

/-- C15 (amended): for every prior audio state, after `handleSoundSourceChange`
with `none` (before and after the render that follows) `soundSource` is `none`,
`isPlaying` is false, and `audioRef` holds what it held before, paused: no
ambient object is playing through it, but the reference is not cleared and no
object is detached. -/
theorem source_none_pauses (s : AudioState) :
    handleSoundSourceChange SoundSource.none s
      = { s with
          soundSource := SoundSource.none
          isPlaying := false
          audioRef := s.audioRef.map Audio.pause } ∧
    (dispatchAudio (handleSoundSourceChange SoundSource.none) s).soundSource = SoundSource.none ∧
    (dispatchAudio (handleSoundSourceChange SoundSource.none) s).isPlaying = false ∧
    (dispatchAudio (handleSoundSourceChange SoundSource.none) s).audioRef
      = s.audioRef.map Audio.pause ∧
    (dispatchAudio (handleSoundSourceChange SoundSource.none) s).detached = s.detached ∧
    (∀ a ∈ (dispatchAudio (handleSoundSourceChange SoundSource.none) s).audioRef,
      a.paused = true) ∧
    ((dispatchAudio (handleSoundSourceChange SoundSource.none) s).audioRef = none ↔
      s.audioRef = none) := by
  obtain ⟨h1, h2, h3, h4, _⟩ := dispatch_source_none s
  refine ⟨handleSoundSourceChange_none s, h1, h2, h3, h4, ?_, ?_⟩
  · rw [h3]
    intro a ha
    cases hr : s.audioRef with
    | none => simp [hr] at ha
    | some b =>
      simp [hr] at ha
      rw [← ha]
      rfl
  · rw [h3]
    cases s.audioRef <;> simp

theorem toggleMusic_of_handle (s : AudioState) (a : Audio)
    (hsrc : s.soundSource = SoundSource.default ∨ s.soundSource = SoundSource.custom)
    (ha : s.audioRef = some a) :
    toggleMusic s
      = { s with
          isPlaying := !s.isPlaying
          audioRef := some (if s.isPlaying then a.pause else a.play) } := by
  unfold toggleMusic
  rw [if_pos hsrc, ha]
  cases s.isPlaying <;> rfl

/-- What `toggleMusic` does in every state: when the source is `default` or
`custom` and `audioRef` holds a handle, it negates `isPlaying`, pauses the
handle if `isPlaying` was true and plays it otherwise, and changes nothing
else; if the flag agreed with the handle before, the handle flips between
paused and playing; two consecutive toggles restore `isPlaying`.  When the
source is `none` or there is no handle the audio state is unchanged. -/
theorem toggle_music_flips (s : AudioState) :
    (s.soundSource ≠ SoundSource.none → ∀ a, s.audioRef = some a →
      toggleMusic s
        = { s with
            isPlaying := !s.isPlaying
            audioRef := some (if s.isPlaying then a.pause else a.play) } ∧
      (∀ b ∈ (toggleMusic s).audioRef, b.paused = s.isPlaying) ∧
      (a.paused = !s.isPlaying → ∀ b ∈ (toggleMusic s).audioRef, b.paused = !a.paused) ∧
      (toggleMusic (toggleMusic s)).isPlaying = s.isPlaying) ∧
    (s.soundSource = SoundSource.none ∨ s.audioRef = none → toggleMusic s = s) := by
  constructor
  · intro hs a ha
    have hsrc : s.soundSource = SoundSource.default ∨ s.soundSource = SoundSource.custom := by
      cases hc : s.soundSource
      · exact absurd hc hs
      · exact Or.inl rfl
      · exact Or.inr rfl
    have ht := toggleMusic_of_handle s a hsrc ha
    have hp : ∀ b ∈ (toggleMusic s).audioRef, b.paused = s.isPlaying := by
      rw [ht]
      intro b hb
      simp only [Option.mem_def, Option.some.injEq] at hb
      rw [← hb]
      cases s.isPlaying <;> rfl
    refine ⟨ht, hp, ?_, ?_⟩
    · intro hag b hb
      rw [hp b hb, hag, Bool.not_not]
    · rw [ht]
      rw [toggleMusic_of_handle
        { s with
          isPlaying := !s.isPlaying
          audioRef := some (if s.isPlaying then a.pause else a.play) }
        (if s.isPlaying then a.pause else a.play) hsrc rfl]
      simp
  · intro h
    unfold toggleMusic
    rcases h with h | h
    · rw [if_neg (by rw [h]; decide)]
    · rw [h]
      split <;> rfl

theorem toggle_music_flips_witness :
    (toggleMusic (toggleMusic mountedAudio)).isPlaying = mountedAudio.isPlaying ∧
    toggleMusic (handleSoundSourceChange SoundSource.none mountedAudio)
      = handleSoundSourceChange SoundSource.none mountedAudio :=
  ⟨((toggle_music_flips mountedAudio).1 (by rw [mountedAudio_eq]; decide)
      { src := "/sounds/nature.mp3", loop := true, volume := 1 / 2, paused := false,
        playCalls := 1 }
      (by rw [mountedAudio_eq])).2.2.2,
   (toggle_music_flips (handleSoundSourceChange SoundSource.none mountedAudio)).2
      (Or.inl (by rw [handleSoundSourceChange_none]))⟩

theorem source_none_pauses_witness :
    (dispatchAudio (handleSoundSourceChange SoundSource.none) mountedAudio).audioRef
      = some { src := "/sounds/nature.mp3", loop := true, volume := 1 / 2, paused := true,
               playCalls := 1 } := by
  rw [(source_none_pauses mountedAudio).2.2.2.1, mountedAudio_eq]
  rfl

theorem dispatch_source_default (s : AudioState) (hs : s.soundSource ≠ SoundSource.default)
    (hv : 0 ≤ s.volume ∧ s.volume ≤ 1) :
    dispatchAudio (handleSoundSourceChange SoundSource.default) s
      = { s with
          soundSource := SoundSource.default
          isPlaying := true
          detached := s.detached ++ (s.audioRef.map Audio.pause).toList
          audioRef := some { src := defaultSounds s.selectedSound, loop := true,
                             volume := s.volume, paused := true, playCalls := 1 }
          timerAudioRef := { s.timerAudioRef with volume := s.volume, paused := true }
          taskAudioRef := { s.taskAudioRef with volume := s.volume, paused := true } } := by
  have hh : handleSoundSourceChange SoundSource.default s
      = startAmbient (defaultSounds s.selectedSound)
          (pauseCurrent { s with soundSource := SoundSource.default }) := by
    simp [handleSoundSourceChange]
  unfold dispatchAudio
  rw [hh, startAmbient_of_accepted (defaultSounds s.selectedSound)
    (pauseCurrent { s with soundSource := SoundSource.default }) hv]
  simp [renderAudio, hs, soundSourceCleanup, soundSourceEffect, Audio.setVolume, hv,
    volumeEffect, Audio.pause, pauseCurrent]

theorem dispatch_source_custom_without_file (s : AudioState)
    (hs : s.soundSource = SoundSource.default) (hc : s.customSound = none)
    (hv : 0 ≤ s.volume ∧ s.volume ≤ 1) :
    dispatchAudio (handleSoundSourceChange SoundSource.custom) s
      = { s with
          soundSource := SoundSource.custom
          audioRef := s.audioRef.map (fun a => { a with volume := s.volume, paused := true })
          timerAudioRef := { s.timerAudioRef with volume := s.volume, paused := true }
          taskAudioRef := { s.taskAudioRef with volume := s.volume, paused := true } } := by
  have hh : handleSoundSourceChange SoundSource.custom s
      = pauseCurrent { s with soundSource := SoundSource.custom } := by
    simp [handleSoundSourceChange, hc, truthy]
  unfold dispatchAudio
  rw [hh]
  simp [renderAudio, hs, soundSourceCleanup, soundSourceEffect, hv,
    volumeEffect, Audio.pause, pauseCurrent]
  cases s.audioRef <;> rfl

theorem dispatch_source_none_eq (s : AudioState) (hs : s.soundSource ≠ SoundSource.none) :
    dispatchAudio (handleSoundSourceChange SoundSource.none) s
      = { s with
          soundSource := SoundSource.none
          isPlaying := false
          audioRef := s.audioRef.map Audio.pause
          timerAudioRef := s.timerAudioRef.pause
          taskAudioRef := s.taskAudioRef.pause } := by
  unfold dispatchAudio renderAudio
  rw [handleSoundSourceChange_none]
  simp [hs, soundSourceEffect, soundSourceCleanup, volumeEffect, map_pause_comp]

theorem reselectedDefault_fields :
    reselectedDefault.soundSource = SoundSource.default ∧
    reselectedDefault.isPlaying = true ∧
    reselectedDefault.audioRef
      = some { src := "/sounds/nature.mp3", loop := true, volume := 1 / 2, paused := true,
               playCalls := 1 } := by
  have h0 := dispatch_source_none_eq mountedAudio (by rw [mountedAudio_eq]; decide)
  have hv : (0 : Rat) ≤ 1 / 2 ∧ (1 / 2 : Rat) ≤ 1 := by norm_num
  have hsound : defaultSounds "nature" = "/sounds/nature.mp3" := by decide
  have h1 := dispatch_source_default
    { mountedAudio with
      soundSource := SoundSource.none
      isPlaying := false
      audioRef := mountedAudio.audioRef.map Audio.pause
      timerAudioRef := mountedAudio.timerAudioRef.pause
      taskAudioRef := mountedAudio.taskAudioRef.pause }
    (by show SoundSource.none ≠ SoundSource.default; decide)
    (by show 0 ≤ mountedAudio.volume ∧ mountedAudio.volume ≤ 1; rw [mountedAudio_eq]; exact hv)
  unfold reselectedDefault
  rw [h0, h1]
  refine ⟨rfl, rfl, ?_⟩
  show some ({ src := defaultSounds mountedAudio.selectedSound, loop := true,
               volume := mountedAudio.volume, paused := true, playCalls := 1 } : Audio) = _
  rw [mountedAudio_eq]
  show some ({ src := defaultSounds "nature", loop := true, volume := (1 / 2 : Rat),
               paused := true, playCalls := 1 } : Audio) = _
  rw [hsound]

theorem customWithoutFile_fields :
    customWithoutFile.soundSource = SoundSource.custom ∧
    customWithoutFile.isPlaying = true ∧
    customWithoutFile.audioRef
      = some { src := "/sounds/nature.mp3", loop := true, volume := 1 / 2, paused := true,
               playCalls := 1 } := by
  have hv : 0 ≤ mountedAudio.volume ∧ mountedAudio.volume ≤ 1 := by
    rw [mountedAudio_eq]
    show (0 : Rat) ≤ 1 / 2 ∧ (1 / 2 : Rat) ≤ 1
    norm_num
  unfold customWithoutFile
  rw [dispatch_source_custom_without_file mountedAudio (by rw [mountedAudio_eq])
    (by rw [mountedAudio_eq]) hv]
  refine ⟨rfl, ?_, ?_⟩
  · show mountedAudio.isPlaying = true
    rw [mountedAudio_eq]
  · show mountedAudio.audioRef.map
      (fun a => { a with volume := mountedAudio.volume, paused := true }) = _
    rw [mountedAudio_eq]
    rfl

/-- C16 (the code at the failing inputs): after the source was set to `none`
and back to `default`, and likewise after it was set to `custom` with no file
uploaded, the source is not `none`, `audioRef` holds a handle, that handle is
paused and `isPlaying` is true.  `toggleMusic` then tests the flag: it sets
`isPlaying` to false and leaves the paused handle paused, with no further
`play()` invocation, instead of playing it. -/
theorem toggle_music_stale_flag :
    reselectedDefault.soundSource = SoundSource.default ∧
    reselectedDefault.isPlaying = true ∧
    reselectedDefault.audioRef.map Audio.paused = some true ∧
    (toggleMusic reselectedDefault).isPlaying = false ∧
    (toggleMusic reselectedDefault).audioRef = reselectedDefault.audioRef ∧
    (toggleMusic reselectedDefault).audioRef.map Audio.paused = some true ∧
    customWithoutFile.soundSource = SoundSource.custom ∧
    customWithoutFile.isPlaying = true ∧
    customWithoutFile.audioRef.map Audio.paused = some true ∧
    (toggleMusic customWithoutFile).isPlaying = false ∧
    (toggleMusic customWithoutFile).audioRef = customWithoutFile.audioRef ∧
    (toggleMusic customWithoutFile).audioRef.map Audio.paused = some true := by
  obtain ⟨s1, p1, r1⟩ := reselectedDefault_fields
  obtain ⟨s2, p2, r2⟩ := customWithoutFile_fields
  have t1 := toggleMusic_of_handle reselectedDefault _ (Or.inl s1) r1
  have t2 := toggleMusic_of_handle customWithoutFile _ (Or.inr s2) r2
  refine ⟨s1, p1, by rw [r1]; rfl, ?_, ?_, ?_, s2, p2, by rw [r2]; rfl, ?_, ?_, ?_⟩
  · rw [t1, p1]; rfl
  · rw [t1, p1, r1]; rfl
  · rw [t1, p1]; rfl
  · rw [t2, p2]; rfl
  · rw [t2, p2, r2]; rfl
  · rw [t2, p2]; rfl

/-! ## Preferences -/

theorem loadPreferences_fields (p : PrefState) :
    (loadPreferences p).selectedTheme
      = (if truthy (getItem p.localStorage "theme")
          then (getItem p.localStorage "theme").getD "" else p.selectedTheme) ∧
    (loadPreferences p).isDarkMode
      = (if truthy (getItem p.localStorage "darkMode")
          then (getItem p.localStorage "darkMode").getD "" == "true" else p.isDarkMode) ∧
    (loadPreferences p).backgroundImage
      = (if truthy (getItem p.localStorage "background")
          then (getItem p.localStorage "background").getD "" else p.backgroundImage) ∧
    (loadPreferences p).title = p.title ∧
    (loadPreferences p).tempTitle = p.tempTitle ∧
    (loadPreferences p).localStorage = p.localStorage := by
  unfold loadPreferences
  simp only
  split_ifs <;> exact ⟨rfl, rfl, rfl, rfl, rfl, rfl⟩

theorem loadTitle_fields (p : PrefState) :
    (loadTitle p).selectedTheme = p.selectedTheme ∧
    (loadTitle p).isDarkMode = p.isDarkMode ∧
    (loadTitle p).backgroundImage = p.backgroundImage ∧
    (loadTitle p).title
      = (if truthy (getItem p.localStorage "appTitle")
          then (getItem p.localStorage "appTitle").getD "" else p.title) ∧
    (loadTitle p).tempTitle
      = (if truthy (getItem p.localStorage "appTitle")
          then (getItem p.localStorage "appTitle").getD "" else p.tempTitle) := by
  unfold loadTitle
  simp only
  split_ifs <;> exact ⟨rfl, rfl, rfl, rfl, rfl⟩

theorem truthy_some (v : String) (h : v ≠ "") : truthy (some v) = true := by
  simp [truthy, h]

theorem truthy_absent_or_empty (r : Option String) (h : r = none ∨ r = some "") :
    truthy r = false := by
  rcases h with h | h <;> rw [h] <;> rfl

/-- C17 (the code at the claim's operations): `toggleTheme`,
`handleThemeColorChange` and `handleBackgroundChange` leave `localStorage`
exactly as it was, so on a fresh storage the dark-mode flag, the theme and the
background image just set are gone after the next `load`; only `handleSave`
writes its field (`appTitle`), which the next `load` returns. -/
theorem preferences_not_written_through :
    (∀ p, (toggleTheme p).localStorage = p.localStorage) ∧
    (∀ color p, (handleThemeColorChange color p).localStorage = p.localStorage) ∧
    (∀ file p, (handleBackgroundChange file p).localStorage = p.localStorage) ∧
    (toggleTheme {}).isDarkMode = true ∧
    getItem (toggleTheme {}).localStorage "darkMode" = none ∧
    (load (toggleTheme {}).localStorage).isDarkMode = false ∧
    (handleThemeColorChange "blue" {}).selectedTheme = "blue" ∧
    getItem (handleThemeColorChange "blue" {}).localStorage "theme" = none ∧
    (load (handleThemeColorChange "blue" {}).localStorage).selectedTheme = "purple" ∧
    (handleBackgroundChange (some "data:image/png;base64,AAAA") {}).backgroundImage
      = "data:image/png;base64,AAAA" ∧
    getItem (handleBackgroundChange (some "data:image/png;base64,AAAA") {}).localStorage
      "background" = none ∧
    (load (handleBackgroundChange (some "data:image/png;base64,AAAA") {}).localStorage
      ).backgroundImage = "/images/default-bg.jpg" ∧
    (handleSave (setTempTitle "My day" (handleEditClick {}))).title = "My day" ∧
    getItem (handleSave (setTempTitle "My day" (handleEditClick {}))).localStorage "appTitle"
      = some "My day" ∧
    (load (handleSave (setTempTitle "My day" (handleEditClick {}))).localStorage).title
      = "My day" := by
  refine ⟨fun _ => rfl, ?_, ?_, by decide, by decide, by decide, by decide, by decide,
    by decide, by decide, by decide, by decide, by decide, by decide, by decide⟩
  · intro color p
    unfold handleThemeColorChange
    split_ifs <;> rfl
  · intro file p
    cases file <;> rfl

/-- C18 (as stated, refuted): with the key `theme` present and holding the
empty string, `selectedTheme` after the load is the default `purple`, not the
stored value. -/
theorem load_empty_value_counterexample :
    getItem [("theme", "")] "theme" = some "" ∧
    ¬ ((load [("theme", "")]).selectedTheme = "") := by
  decide

/-- C18 (amended): for every storage content, after the load effects each of
`selectedTheme`, `backgroundImage` and `title` equals the stored value when its
key (`theme`, `background`, `appTitle`) holds a non-empty string and keeps its
default (`purple`, `/images/default-bg.jpg`, `Cozy Todo`) when the key is absent
or holds the empty string; `isDarkMode` is true exactly when the stored
`darkMode` string is `true`. -/
theorem load_applies_stored_values (storage : Storage) :
    (∀ v, getItem storage "theme" = some v → v ≠ "" → (load storage).selectedTheme = v) ∧
    (getItem storage "theme" = none ∨ getItem storage "theme" = some "" →
      (load storage).selectedTheme = "purple") ∧
    (∀ v, getItem storage "background" = some v → v ≠ "" →
      (load storage).backgroundImage = v) ∧
    (getItem storage "background" = none ∨ getItem storage "background" = some "" →
      (load storage).backgroundImage = "/images/default-bg.jpg") ∧
    (∀ v, getItem storage "appTitle" = some v → v ≠ "" → (load storage).title = v) ∧
    (getItem storage "appTitle" = none ∨ getItem storage "appTitle" = some "" →
      (load storage).title = "Cozy Todo") ∧
    ((load storage).isDarkMode = true ↔ getItem storage "darkMode" = some "true") := by
  obtain ⟨hth, hdm, hbg, hti, _, hst⟩ := loadPreferences_fields { localStorage := storage }
  obtain ⟨hth', hdm', hbg', hti', _⟩ := loadTitle_fields (loadPreferences { localStorage := storage })
  have e1 : (load storage).selectedTheme = _ := hth'.trans hth
  have e2 : (load storage).isDarkMode = _ := hdm'.trans hdm
  have e3 : (load storage).backgroundImage = _ := hbg'.trans hbg
  have e4 : (load storage).title = _ := hti'
  rw [hst, hti] at e4
  simp only at e1 e2 e3 e4
  refine ⟨?_, ?_, ?_, ?_, ?_, ?_, ?_⟩
  · intro v hv hne
    rw [e1, hv, truthy_some v hne]
    rfl
  · intro h
    rw [e1, truthy_absent_or_empty _ h]
    rfl
  · intro v hv hne
    rw [e3, hv, truthy_some v hne]
    rfl
  · intro h
    rw [e3, truthy_absent_or_empty _ h]
    rfl
  · intro v hv hne
    rw [e4, hv, truthy_some v hne]
    rfl
  · intro h
    rw [e4, truthy_absent_or_empty _ h]
    rfl
  · rw [e2]
    cases hg : getItem storage "darkMode" with
    | none => simp [truthy]
    | some v =>
      by_cases hv : v = ""
      · subst hv
        simp [truthy]
      · simp [truthy, hv]

theorem load_applies_stored_values_witness :
    (load [("theme", "blue"), ("darkMode", "true")]).selectedTheme = "blue" ∧
    (load [("theme", "blue"), ("darkMode", "true")]).backgroundImage
      = "/images/default-bg.jpg" ∧
    (load [("theme", "blue"), ("darkMode", "true")]).isDarkMode = true :=
  ⟨(load_applies_stored_values [("theme", "blue"), ("darkMode", "true")]).1 "blue"
      (by decide) (by decide),
   (load_applies_stored_values [("theme", "blue"), ("darkMode", "true")]).2.2.2.1
      (Or.inl (by decide)),
   (load_applies_stored_values [("theme", "blue"), ("darkMode", "true")]).2.2.2.2.2.2.2
      (by decide)⟩

/-! ## Time display -/

theorem numberToString_natCast (k : Nat) : numberToString (k : Int) = ⟨Nat.toDigits 10 k⟩ := by
  unfold numberToString
  rw [if_neg (by omega)]
  simp

theorem padStart_two_digits (r : Nat) (h : r < 60) :
    (padStart (numberToString (r : Int)) 2 '0').data
      = [Nat.digitChar (r / 10), Nat.digitChar (r % 10)] := by
  interval_cases r <;> rfl

theorem formatTime_natCast (n : Nat) :
    formatTime (n : Int)
      = ⟨Nat.toDigits 10 (n / 60)
          ++ [':', Nat.digitChar (n % 60 / 10), Nat.digitChar (n % 60 % 10)]⟩ := by
  have h1 : Int.fdiv (n : Int) 60 = ((n / 60 : Nat) : Int) := (Int.ofNat_fdiv n 60).symm
  have h2 : Int.tmod (n : Int) 60 = ((n % 60 : Nat) : Int) := (Int.ofNat_tmod n 60).symm
  have h3 := padStart_two_digits (n % 60) (Nat.mod_lt _ (by decide))
  unfold formatTime
  apply String.ext
  rw [numberToString_natCast] at h3
  simp only [h1, h2, numberToString_natCast, String.data_append, h3]
  simp

theorem digitChar_injective (d e : Nat) (hd : d < 10) (he : e < 10)
    (h : Nat.digitChar d = Nat.digitChar e) : d = e := by
  have h1 := radixDigit_digitChar d hd
  rw [h, radixDigit_digitChar e he] at h1
  exact (Option.some.inj h1).symm

theorem digitsValue_two_digits (d e : Nat) (hd : d < 10) (he : e < 10) :
    digitsValue 10 [Nat.digitChar d, Nat.digitChar e] = d * 10 + e := by
  simp [digitsValue, radixDigit_digitChar d hd, radixDigit_digitChar e he]

/-- C19: `formatTime(1500)` is `25:00`, and for every safe integer `n ≥ 0` the
result is the decimal numeral of `⌊n / 60⌋`, a colon, and the two decimal
digits of `n mod 60` (tens digit at most 5); sixty times the value of the
minutes numeral plus the value of the two digits is `n`, so different
safe non-negative inputs give different strings. -/
theorem formatTime_minutes_colon_seconds :
    formatTime 1500 = "25:00" ∧
    ∀ n : Nat, SafeInteger (n : Int) →
      formatTime (n : Int)
        = ⟨Nat.toDigits 10 (n / 60)
            ++ [':', Nat.digitChar (n % 60 / 10), Nat.digitChar (n % 60 % 10)]⟩ ∧
      n % 60 / 10 < 6 ∧ n % 60 % 10 < 10 ∧
      60 * digitsValue 10 (Nat.toDigits 10 (n / 60))
        + digitsValue 10 [Nat.digitChar (n % 60 / 10), Nat.digitChar (n % 60 % 10)] = n ∧
      ∀ m : Nat, SafeInteger (m : Int) → m ≠ n →
        formatTime (m : Int) ≠ formatTime (n : Int) := by
  refine ⟨by decide, ?_⟩
  intro n _
  have hr : n % 60 < 60 := Nat.mod_lt _ (by decide)
  refine ⟨formatTime_natCast n, by omega, by omega, ?_, ?_⟩
  · rw [(toDigits_spec (n / 60)).2.2, digitsValue_two_digits _ _ (by omega) (by omega)]
    omega
  · intro m _ hne heq
    have hm : m % 60 < 60 := Nat.mod_lt _ (by decide)
    rw [formatTime_natCast, formatTime_natCast] at heq
    have hdata := congrArg String.data heq
    simp only at hdata
    have hlen : (Nat.toDigits 10 (m / 60)).length = (Nat.toDigits 10 (n / 60)).length := by
      have := congrArg List.length hdata
      simp only [List.length_append, List.length_cons, List.length_nil] at this
      omega
    obtain ⟨hmin, hsec⟩ := List.append_inj hdata hlen
    have hq : m / 60 = n / 60 := by
      rw [← (toDigits_spec (m / 60)).2.2, ← (toDigits_spec (n / 60)).2.2, hmin]
    simp only [List.cons.injEq, and_true, true_and] at hsec
    have ht := digitChar_injective _ _ (by omega) (by omega) hsec.1
    have hu := digitChar_injective _ _ (by omega) (by omega) hsec.2
    exact hne (by omega)

theorem formatTime_minutes_colon_seconds_witness :
    formatTime ((3599 : Nat) : Int) = "59:59" ∧
    formatTime ((59 : Nat) : Int) ≠ formatTime ((60 : Nat) : Int) :=
  ⟨((formatTime_minutes_colon_seconds.2 3599 (by decide)).1).trans (by decide),
   (formatTime_minutes_colon_seconds.2 60 (by decide)).2.2.2.2 59 (by decide) (by decide)⟩

theorem handleToggleComplete_of_lt (i : Nat) (s : TodoState) (hi : i < s.todos.length) :
    handleToggleComplete i s
      = some { s with
          todos := s.todos.set i
            { s.todos[i] with completed := !s.todos[i].completed } } := by
  unfold handleToggleComplete
  rw [List.getElem?_eq_getElem hi]

/-- C20: for an index inside the list `handleToggleComplete` returns a list of
the same length with the same texts in the same order; the item at the index
has its `completed` flag negated and every other item is unchanged; toggling
the same index again gives back the original state. -/
theorem toggle_complete_flips (i : Nat) (s : TodoState) (hi : i < s.todos.length) :
    ∃ s', handleToggleComplete i s = some s' ∧
      s'.newTodo = s.newTodo ∧
      s'.todos.length = s.todos.length ∧
      s'.todos.map TodoItem.text = s.todos.map TodoItem.text ∧
      s'.todos[i]? = s.todos[i]?.map (fun t => { t with completed := !t.completed }) ∧
      (∀ j, j ≠ i → s'.todos[j]? = s.todos[j]?) ∧
      handleToggleComplete i s' = some s := by
  refine ⟨_, handleToggleComplete_of_lt i s hi, rfl, by simp, ?_, ?_, ?_, ?_⟩
  · apply List.ext_getElem?
    intro j
    simp only [List.getElem?_map, List.getElem?_set]
    by_cases hj : i = j
    · subst hj
      simp [hi, List.getElem?_eq_getElem hi]
    · simp [hj]
  · simp [List.getElem?_set, hi, List.getElem?_eq_getElem hi]
  · intro j hj
    simp [List.getElem?_set, Ne.symm hj]
  · have hi' : i < (s.todos.set i { s.todos[i] with completed := !s.todos[i].completed }).length := by
      simpa using hi
    rw [handleToggleComplete_of_lt i _ hi']
    simp only [List.getElem_set_self, Bool.not_not, List.set_set]
    congr 1
    cases s with
    | mk todos newTodo =>
      simp only [TodoState.mk.injEq, and_true]
      apply List.ext_getElem?
      intro j
      rw [List.getElem?_set]
      by_cases hj : i = j
      · subst hj
        simp [hi, List.getElem?_eq_getElem hi]
      · simp [hj]

theorem toggle_complete_flips_witness :
    ∃ s', handleToggleComplete 1
        { todos := [{ text := "a", completed := false }, { text := "b", completed := false }] }
        = some s' ∧
      s'.todos.map TodoItem.completed = [false, true] :=
  (toggle_complete_flips 1
      { todos := [{ text := "a", completed := false }, { text := "b", completed := false }] }
      (by decide)).elim
    (fun s' h => ⟨s', h.1, by
      have h1 := h.1
      have h2 : handleToggleComplete 1
          { todos := [{ text := "a", completed := false }, { text := "b", completed := false }] }
          = some { todos := [{ text := "a", completed := false },
                             { text := "b", completed := true }] } := by decide
      rw [h2] at h1
      cases h1
      rfl⟩)

/-! ## Title editing -/

theorem getItem_setItem_self (storage : Storage) (key value : String) :
    getItem (setItem storage key value) key = some value := by
  simp [getItem, setItem, List.lookup_cons]

theorem getItem_removeItem_of_ne (storage : Storage) (key other : String) (h : other ≠ key) :
    getItem (removeItem storage key) other = getItem storage other := by
  induction storage with
  | nil => rfl
  | cons e es ih =>
    unfold getItem removeItem at *
    by_cases he : e.1 = key
    · have hf : (e.1 != key) = false := by simp [he]
      have ho : (other == e.1) = false := by simp [he, h]
      rw [List.filter_cons, hf]
      simp only [Bool.false_eq_true, if_false]
      rw [ih]
      cases e with
      | mk a b => simp only [List.lookup_cons]; simp only at ho; rw [ho]
    · have hf : (e.1 != key) = true := by simp [he]
      rw [List.filter_cons, hf]
      simp only [if_true]
      cases e with
      | mk a b =>
        simp only [List.lookup_cons]
        rw [ih]

theorem getItem_setItem_of_ne (storage : Storage) (key value other : String)
    (h : other ≠ key) :
    getItem (setItem storage key value) other = getItem storage other := by
  have ho : (other == key) = false := by simp [h]
  have hr := getItem_removeItem_of_ne storage key other h
  unfold getItem at *
  unfold setItem
  rw [List.lookup_cons, ho]
  exact hr

/-- C21: for every current title, edit buffer and storage, `handleSave` with an
empty or white-space-only buffer leaves the title and the storage unchanged and
restores the buffer to the current title; with any other buffer the title
becomes the buffer exactly as typed, the same string is what `appTitle` holds
in storage afterwards, and every other key is untouched; in both cases
`isEditing` is false afterwards.  `handleCancel` restores the buffer, ends
editing and changes neither the title nor the storage. -/
theorem title_save_and_cancel (p : PrefState) :
    ((∀ c ∈ p.tempTitle.data, isStrWhiteSpaceChar c = true) →
      handleSave p = { p with tempTitle := p.title, isEditing := false } ∧
      (handleSave p).title = p.title ∧
      (handleSave p).localStorage = p.localStorage ∧
      (handleSave p).tempTitle = p.title ∧
      (handleSave p).isEditing = false) ∧
    ((∃ c ∈ p.tempTitle.data, isStrWhiteSpaceChar c = false) →
      handleSave p
        = { p with
            title := p.tempTitle
            localStorage := setItem p.localStorage "appTitle" p.tempTitle
            isEditing := false } ∧
      (handleSave p).title = p.tempTitle ∧
      getItem (handleSave p).localStorage "appTitle" = some p.tempTitle ∧
      (∀ key, key ≠ "appTitle" →
        getItem (handleSave p).localStorage key = getItem p.localStorage key) ∧
      (handleSave p).isEditing = false) ∧
    handleCancel p = { p with tempTitle := p.title, isEditing := false } ∧
    (handleCancel p).title = p.title ∧
    (handleCancel p).localStorage = p.localStorage ∧
    (handleCancel p).isEditing = false := by
  refine ⟨?_, ?_, rfl, rfl, rfl, rfl⟩
  · intro h
    have ht : trim p.tempTitle = "" := (trim_eq_empty_iff p.tempTitle).mpr h
    have hs : handleSave p = { p with tempTitle := p.title, isEditing := false } := by
      simp [handleSave, ht]
    rw [hs]
    exact ⟨rfl, rfl, rfl, rfl, rfl⟩
  · intro ⟨c, hc, hw⟩
    have ht : trim p.tempTitle ≠ "" := by
      intro he
      have := (trim_eq_empty_iff p.tempTitle).mp he c hc
      rw [hw] at this
      cases this
    have hs : handleSave p
        = { p with
            title := p.tempTitle
            localStorage := setItem p.localStorage "appTitle" p.tempTitle
            isEditing := false } := by
      simp [handleSave, ht]
    rw [hs]
    refine ⟨rfl, rfl, getItem_setItem_self _ _ _, ?_, rfl⟩
    intro key hk
    exact getItem_setItem_of_ne _ _ _ _ hk

theorem title_save_and_cancel_witness :
    handleSave { title := "Cozy Todo", tempTitle := "   ", isEditing := true,
                 localStorage := [("theme", "blue")] }
      = { title := "Cozy Todo", tempTitle := "Cozy Todo", isEditing := false,
          localStorage := [("theme", "blue")] } ∧
    (handleSave { title := "Cozy Todo", tempTitle := " My day ", isEditing := true,
                  localStorage := [("theme", "blue")] }).title = " My day " ∧
    getItem (handleSave { title := "Cozy Todo", tempTitle := " My day ", isEditing := true,
                          localStorage := [("theme", "blue")] }).localStorage "appTitle"
      = some " My day " :=
  ⟨((title_save_and_cancel { title := "Cozy Todo", tempTitle := "   ", isEditing := true,
                             localStorage := [("theme", "blue")] }).1 (by decide)).1,
   ((title_save_and_cancel { title := "Cozy Todo", tempTitle := " My day ", isEditing := true,
                             localStorage := [("theme", "blue")] }).2.1
      ⟨'M', by decide, by decide⟩).2.1,
   ((title_save_and_cancel { title := "Cozy Todo", tempTitle := " My day ", isEditing := true,
                             localStorage := [("theme", "blue")] }).2.1
      ⟨'M', by decide, by decide⟩).2.2.1⟩

end CozyTodo
